import Mathlib

/-!
Verification of the instruction execution engine of an 8088-class CPU
emulator (`execute_instruction` in `src/cpu/cpu_execute.rs`).

The embedding below is a shallow translation of `execute_instruction`:
the data model (registers, flags, REP state, call stack) becomes a Lean
structure, the opcode dispatch becomes a match producing a `DispatchOut`
record that carries the per-call locals (`unhandled`, `jump`,
`exception`, plus an `early` marker for the default arm's immediate
`UnsupportedOpcode` return), and the tail result classification is
translated verbatim.

Scope notes, stated once here:
* The dispatch covers the arms exercised by the verified properties
  (conditional jumps 0x60-0x7F, CALLF 0x9A, string ops 0xA4-0xA7 and
  0xAA-0xAF, AAM/AAD 0xD4/0xD5, OUT 0xE7/0xEF, CALL/JMP 0xE8-0xEB,
  0xF0-0xFD, and the extension groups 0xF6/0xF7/0xFE/0xFF); all other
  opcodes take the default arm.  Cycle accounting and the BIU
  suspend/flush signals are timing-only side effects and are not
  modelled.
* Machine integers are `Nat` reduced modulo the type width at every
  write; wrapping arithmetic follows Rust release-build semantics.
* Sub-engines that live outside `src/` (ALU flag updates, BCD adjusts,
  multiply/divide, the single-iteration string ops, the effective
  address and stack helpers) are modelled from the spec; each such
  definition says so in its doc comment.
* Bus memory is carried in the machine state as a write log
  (most-recent-first association list), so state equality is decidable.
-/

/-- 8-bit register names, as in the register file. -/
inductive Register8 where
  | AL | CL | DL | BL | AH | CH | DH | BH
  deriving DecidableEq, Repr

/-- 16-bit register names, as in the register file. -/
inductive Register16 where
  | AX | CX | DX | BX | SP | BP | SI | DI | CS | DS | SS | ES | IP
  | InvalidRegister
  deriving DecidableEq, Repr

/-- Segment-override prefix tag carried by a decoded instruction. -/
inductive SegmentOverride where
  | None | ES | CS | SS | DS
  deriving DecidableEq, Repr

/-- Resolved mnemonics used by the dispatch arms that consult the
mnemonic field (string ops and the opcode-extension groups). -/
inductive Mnemonic where
  | MOVSB | MOVSW | CMPSB | CMPSW | SCASB | SCASW | LODSB | LODSW
  | STOSB | STOSW
  | TEST | NOT | NEG | MUL | IMUL | DIV | IDIV
  | INC | DEC | CALL | CALLF | JMP | JMPF | PUSH
  | CMP | AAM | AAD | NOP | InvalidMnemonic
  deriving DecidableEq, Repr

/-- Operand descriptors of a decoded instruction.  The addressing-mode
descriptor is simplified to a resolved 16-bit displacement (the modrm
effective-address computation lives outside `src/`); the default
segment for it is DS unless overridden. -/
inductive OperandType where
  | Register8 (r : Register8)
  | Register16 (r : Register16)
  | Immediate8 (v : Nat)
  | Immediate16 (v : Nat)
  | Relative8 (v : Int)
  | Relative16 (v : Int)
  | AddressingMode (disp : Nat)
  | FarAddress (segment : Nat) (offset : Nat)
  | NoOperand
  deriving DecidableEq, Repr

/-- Repeat-prefix kind tracked across string-instruction calls. -/
inductive RepType where
  | NoRep | Rep | Repe | Repne
  deriving DecidableEq, Repr

/-- Saved register bundle of an interrupted REP string instruction,
one variant per string-instruction family. -/
inductive RepState where
  | StosbState (es di cx : Nat)
  | StoswState (es di cx : Nat)
  | LodsbState (seg : Register16) (seg_val si cx : Nat)
  | LodswState (seg : Register16) (seg_val si cx : Nat)
  | MovsbState (seg : Register16) (seg_val si es di cx : Nat)
  | MovswState (seg : Register16) (seg_val si es di cx : Nat)
  | ScasbState (es di cx : Nat)
  | ScaswState (es di cx : Nat)
  | CmpsbState (seg : Register16) (seg_val si es di cx : Nat)
  | CmpswState (seg : Register16) (seg_val si es di cx : Nat)
  | NoState
  deriving DecidableEq, Repr

/-- Exception kinds the engine can raise during one call. -/
inductive CpuException where
  | NoException | DivideError
  deriving DecidableEq, Repr

/-- Typed result of one `execute_instruction` call. -/
inductive ExecutionResult where
  | Okay
  | OkayJump
  | OkayRep
  | Halt
  | ExceptionError (e : CpuException)
  | UnsupportedOpcode (opcode : Nat)
  deriving DecidableEq, Repr

/-- Diagnostic call-stack entries recorded by CALL/CALLF arms. -/
inductive CallStackEntry where
  | Call (cs ip rel16 : Nat)
  | CallF (cs ip segment offset : Nat)
  deriving DecidableEq, Repr

/-- A decoded instruction as consumed by `execute_instruction`. -/
structure Instruction where
  opcode : Nat
  mnemonic : Mnemonic
  operand1_type : OperandType
  operand2_type : OperandType
  segment_override : SegmentOverride
  prefixes : Nat
  size : Nat
  deriving DecidableEq, Repr

/-- REP-prefix bit in the prefix bitmask (REPNE/F2 family).  The bit
values live in `cpu/mod.rs`, outside `src/`; any two distinct bits are
semantics-preserving. -/
def OPCODE_PREFIX_REP1 : Nat := 1

/-- REP-prefix bit in the prefix bitmask (REP/REPE/F3 family). -/
def OPCODE_PREFIX_REP2 : Nat := 2

/-- Modelled from the spec: the configured maximum length of the
diagnostic call stack (`CPU_CALL_STACK_LEN` is declared in
`cpu/mod.rs`, outside `src/`; the spec only says it is a configured
bound, so a representative value is used). -/
def CPU_CALL_STACK_LEN : Nat := 16

/-- The CPU state owned by the execution engine: registers, flags, the
REP state machine, the diagnostic call stack, and (as a write log) the
bus memory reached through the BIU. -/
structure CpuState where
  ax : Nat
  bx : Nat
  cx : Nat
  dx : Nat
  si : Nat
  di : Nat
  sp : Nat
  bp : Nat
  cs : Nat
  ds : Nat
  ss : Nat
  es : Nat
  ip : Nat
  flagC : Bool
  flagP : Bool
  flagA : Bool
  flagZ : Bool
  flagS : Bool
  flagT : Bool
  flagI : Bool
  flagD : Bool
  flagO : Bool
  halted : Bool
  interrupt_inhibit : Bool
  in_rep : Bool
  rep_type : RepType
  rep_mnemonic : Mnemonic
  opcode0_counter : Nat
  call_stack : List CallStackEntry
  rep_state : List (Nat × Nat × RepState)
  mem : List (Nat × Nat)
  deriving DecidableEq, Repr

/-- Write trace of the 8-bit I/O port bus, in write order. -/
abbrev IoBus := List (Nat × Nat)

/-- One 8-bit port write appended to the bus trace. -/
def io_write_u8 (io : IoBus) (port v : Nat) : IoBus :=
  List.append io [(port % 65536, v % 256)]

/-- 20-bit linear address from segment and offset. -/
def calc_linear_address (segment offset : Nat) : Nat :=
  (segment * 16 + offset) % 1048576

/-- Byte read from the memory write log (default 0); the result is a
u8 value, reduced modulo 256. -/
def mem_read8 (m : List (Nat × Nat)) (addr : Nat) : Nat :=
  match m with
  | [] => 0
  | (a, v) :: rest => if a = addr % 1048576 then v % 256 else mem_read8 rest addr

/-- Byte write prepended to the memory write log. -/
def mem_write8 (m : List (Nat × Nat)) (addr v : Nat) : List (Nat × Nat) :=
  (addr % 1048576, v % 256) :: m

/-- Little-endian 16-bit read. -/
def mem_read16 (m : List (Nat × Nat)) (addr : Nat) : Nat :=
  mem_read8 m addr + 256 * mem_read8 m (addr + 1)

/-- Little-endian 16-bit write. -/
def mem_write16 (m : List (Nat × Nat)) (addr v : Nat) : List (Nat × Nat) :=
  mem_write8 (mem_write8 m addr (v % 256)) (addr + 1) (v / 256 % 256)

/-- Value of a 16-bit register. -/
def get_register16 (s : CpuState) (r : Register16) : Nat :=
  match r with
  | .AX => s.ax
  | .CX => s.cx
  | .DX => s.dx
  | .BX => s.bx
  | .SP => s.sp
  | .BP => s.bp
  | .SI => s.si
  | .DI => s.di
  | .CS => s.cs
  | .DS => s.ds
  | .SS => s.ss
  | .ES => s.es
  | .IP => s.ip
  | .InvalidRegister => 0

/-- Write a 16-bit register, reduced modulo 2^16. -/
def set_register16 (s : CpuState) (r : Register16) (v : Nat) : CpuState :=
  let v := v % 65536
  match r with
  | .AX => { s with ax := v }
  | .CX => { s with cx := v }
  | .DX => { s with dx := v }
  | .BX => { s with bx := v }
  | .SP => { s with sp := v }
  | .BP => { s with bp := v }
  | .SI => { s with si := v }
  | .DI => { s with di := v }
  | .CS => { s with cs := v }
  | .DS => { s with ds := v }
  | .SS => { s with ss := v }
  | .ES => { s with es := v }
  | .IP => { s with ip := v }
  | .InvalidRegister => s

/-- Value of an 8-bit register (low or high half of its word). -/
def get_register8 (s : CpuState) (r : Register8) : Nat :=
  match r with
  | .AL => s.ax % 256
  | .AH => s.ax / 256 % 256
  | .CL => s.cx % 256
  | .CH => s.cx / 256 % 256
  | .DL => s.dx % 256
  | .DH => s.dx / 256 % 256
  | .BL => s.bx % 256
  | .BH => s.bx / 256 % 256

/-- Write an 8-bit register inside its word. -/
def set_register8 (s : CpuState) (r : Register8) (v : Nat) : CpuState :=
  let v := v % 256
  match r with
  | .AL => { s with ax := s.ax / 256 % 256 * 256 + v }
  | .AH => { s with ax := v * 256 + s.ax % 256 }
  | .CL => { s with cx := s.cx / 256 % 256 * 256 + v }
  | .CH => { s with cx := v * 256 + s.cx % 256 }
  | .DL => { s with dx := s.dx / 256 % 256 * 256 + v }
  | .DH => { s with dx := v * 256 + s.dx % 256 }
  | .BL => { s with bx := s.bx / 256 % 256 * 256 + v }
  | .BH => { s with bx := v * 256 + s.bx % 256 }

/-- The 16-bit register containing a given 8-bit register, as used by
the register-operand forms of the 0xFE group. -/
def reg8to16 (r : Register8) : Register16 :=
  match r with
  | .AL => .AX
  | .AH => .AX
  | .CL => .CX
  | .CH => .CX
  | .DL => .DX
  | .DH => .DX
  | .BL => .BX
  | .BH => .BX

/-- Segment register selected by an override, with the given default. -/
def resolve_segment (ovr : SegmentOverride) (dflt : Register16) : Register16 :=
  match ovr with
  | .None => dflt
  | .ES => .ES
  | .CS => .CS
  | .SS => .SS
  | .DS => .DS

/-- Interpret `v` (already reduced mod 2^w) as a signed `w`-bit value. -/
def toSigned (w v : Nat) : Int :=
  if v % 2 ^ w < 2 ^ (w - 1) then (v % 2 ^ w : Nat) else (v % 2 ^ w : Nat) - (2 ^ w : Nat)

/-- Reduce an integer to an unsigned `w`-bit value. -/
def toUnsigned (w : Nat) (x : Int) : Nat :=
  (x % (2 ^ w : Nat)).toNat

/-- Modelled from the spec: `util::relative_offset_u16` (in `util.rs`,
outside `src/`) adds a signed displacement to a 16-bit value,
wrapping modulo 2^16; the spec describes taken jumps as
`IP + instruction_size + sign_extend(rel8)`. -/
def relative_offset_u16 (base : Nat) (disp : Int) : Nat :=
  toUnsigned 16 ((base : Int) + disp)

/-- 16-bit wrapping decrement, as used on CX by the REP machinery. -/
def decrement16 (v : Nat) : Nat :=
  (v + 65535) % 65536

/-- Even-parity bit of the low 8 bits of a value. -/
def parity8 (v : Nat) : Bool :=
  decide ((List.range 8).foldl (fun acc k => acc + v / 2 ^ k % 2) 0 % 2 = 0)

/-- Modelled from the spec: flag update of an 8-bit compare/subtract,
per standard x86 semantics (`math_op8` lives in `cpu_alu.rs`, outside
`src/`).  Zero iff equal, Carry iff borrow, Sign from bit 7 of the
difference, Parity from the low 8 bits, Auxiliary from the low-nibble
borrow, Overflow from signed overflow. -/
def cmp_flags8 (s : CpuState) (a b : Nat) : CpuState :=
  let a := a % 256
  let b := b % 256
  let d := (a + 256 - b) % 256
  { s with
    flagZ := decide (a = b)
    flagC := decide (a < b)
    flagS := decide (128 ≤ d)
    flagP := parity8 d
    flagA := decide (a % 16 < b % 16)
    flagO := decide (toSigned 8 a - toSigned 8 b < -128 ∨ 127 < toSigned 8 a - toSigned 8 b) }

/-- Modelled from the spec: flag update of a 16-bit compare/subtract,
per standard x86 semantics. -/
def cmp_flags16 (s : CpuState) (a b : Nat) : CpuState :=
  let a := a % 65536
  let b := b % 65536
  let d := (a + 65536 - b) % 65536
  { s with
    flagZ := decide (a = b)
    flagC := decide (a < b)
    flagS := decide (32768 ≤ d)
    flagP := parity8 d
    flagA := decide (a % 16 < b % 16)
    flagO := decide (toSigned 16 a - toSigned 16 b < -32768 ∨ 32767 < toSigned 16 a - toSigned 16 b) }

/-- Modelled from the spec: result-only flag update (Sign/Zero/Parity
from the result, Overflow/Carry cleared), used by TEST. -/
def logic_flags8 (s : CpuState) (r : Nat) : CpuState :=
  { s with
    flagZ := decide (r % 256 = 0)
    flagS := decide (128 ≤ r % 256)
    flagP := parity8 r
    flagC := false
    flagO := false }

/-- Modelled from the spec: 16-bit result-only flag update. -/
def logic_flags16 (s : CpuState) (r : Nat) : CpuState :=
  { s with
    flagZ := decide (r % 65536 = 0)
    flagS := decide (32768 ≤ r % 65536)
    flagP := parity8 r
    flagC := false
    flagO := false }

/-- Modelled from the spec: the 8-bit ALU entry point (`math_op8`,
outside `src/`), restricted to the mnemonics reached by the embedded
dispatch arms.  Returns the updated state (flags) and the result.
INC/DEC preserve Carry; NOT touches no flags; TEST only sets flags. -/
def math_op8 (s : CpuState) (mn : Mnemonic) (a b : Nat) : CpuState × Nat :=
  let a := a % 256
  let b := b % 256
  match mn with
  | .TEST =>
      let r := a &&& b
      (logic_flags8 s r, r)
  | .NOT => (s, 255 - a)
  | .NEG =>
      let r := (256 - a) % 256
      let s := cmp_flags8 s 0 a
      (s, r)
  | .INC =>
      let r := (a + 1) % 256
      { s with
        flagZ := decide (r = 0)
        flagS := decide (128 ≤ r)
        flagP := parity8 r
        flagA := decide (a % 16 = 15)
        flagO := decide (a = 127) } |> fun s => (s, r)
  | .DEC =>
      let r := (a + 255) % 256
      { s with
        flagZ := decide (r = 0)
        flagS := decide (128 ≤ r)
        flagP := parity8 r
        flagA := decide (a % 16 = 0)
        flagO := decide (a = 128) } |> fun s => (s, r)
  | .CMP => (cmp_flags8 s a b, (a + 256 - b) % 256)
  | _ => (s, 0)

/-- Modelled from the spec: the 16-bit ALU entry point, restricted to
the mnemonics reached by the embedded dispatch arms. -/
def math_op16 (s : CpuState) (mn : Mnemonic) (a b : Nat) : CpuState × Nat :=
  let a := a % 65536
  let b := b % 65536
  match mn with
  | .TEST =>
      let r := a &&& b
      (logic_flags16 s r, r)
  | .NOT => (s, 65535 - a)
  | .NEG =>
      let r := (65536 - a) % 65536
      let s := cmp_flags16 s 0 a
      (s, r)
  | .INC =>
      let r := (a + 1) % 65536
      { s with
        flagZ := decide (r = 0)
        flagS := decide (32768 ≤ r)
        flagP := parity8 r
        flagA := decide (a % 16 = 15)
        flagO := decide (a = 32767) } |> fun s => (s, r)
  | .DEC =>
      let r := (a + 65535) % 65536
      { s with
        flagZ := decide (r = 0)
        flagS := decide (32768 ≤ r)
        flagP := parity8 r
        flagA := decide (a % 16 = 0)
        flagO := decide (a = 32768) } |> fun s => (s, r)
  | .CMP => (cmp_flags16 s a b, (a + 65536 - b) % 65536)
  | _ => (s, 0)

/-- Modelled from the spec: AAM's BCD adjust of AX given a nonzero
divisor (AH gets AL / divisor, AL gets AL mod divisor; Sign/Zero/Parity
follow the new AL).  The divisor-0 exception is decided by the 0xD4
dispatch arm, which is in `src/`. -/
def aam (s : CpuState) (d : Nat) : CpuState :=
  let al := s.ax % 256
  let s := { s with ax := al / d % 256 * 256 + al % d }
  { s with
    flagZ := decide (al % d = 0)
    flagS := decide (128 ≤ al % d)
    flagP := parity8 (al % d) }

/-- Modelled from the spec: AAD's BCD adjust (AL gets AL + AH*divisor,
AH cleared; Sign/Zero/Parity follow the new AL). -/
def aad (s : CpuState) (d : Nat) : CpuState :=
  let al := (s.ax % 256 + s.ax / 256 % 256 * d) % 256
  let s := { s with ax := al }
  { s with
    flagZ := decide (al = 0)
    flagS := decide (128 ≤ al)
    flagP := parity8 al }

/-- Modelled from the spec: unsigned 8-bit multiply, which always
succeeds and writes AX. -/
def multiply_u8 (s : CpuState) (v : Nat) : CpuState :=
  let r := s.ax % 256 * (v % 256)
  let s := { s with ax := r % 65536 }
  { s with flagC := decide (255 < r), flagO := decide (255 < r) }

/-- Modelled from the spec: signed 8-bit multiply. -/
def multiply_i8 (s : CpuState) (v : Nat) : CpuState :=
  let r := toSigned 8 (s.ax % 256) * toSigned 8 v
  let s := { s with ax := toUnsigned 16 r }
  { s with flagC := decide (r < -128 ∨ 127 < r), flagO := decide (r < -128 ∨ 127 < r) }

/-- Modelled from the spec: unsigned 16-bit multiply into DX:AX. -/
def multiply_u16 (s : CpuState) (v : Nat) : CpuState :=
  let r := s.ax % 65536 * (v % 65536)
  let s := { s with ax := r % 65536, dx := r / 65536 % 65536 }
  { s with flagC := decide (65535 < r), flagO := decide (65535 < r) }

/-- Modelled from the spec: signed 16-bit multiply into DX:AX. -/
def multiply_i16 (s : CpuState) (v : Nat) : CpuState :=
  let r := toSigned 16 (s.ax % 65536) * toSigned 16 v
  let u := toUnsigned 32 r
  let s := { s with ax := u % 65536, dx := u / 65536 }
  { s with flagC := decide (r < -32768 ∨ 32767 < r), flagO := decide (r < -32768 ∨ 32767 < r) }

/-- Modelled from the spec: unsigned 8-bit divide.  Failure
(divide-by-zero or quotient overflow past 0xFF) returns `none` and
writes no register; success writes quotient to AL and remainder to AH. -/
def divide_u8 (s : CpuState) (v : Nat) : Option CpuState :=
  let d := v % 256
  if d = 0 then none
  else
    let q := s.ax / d
    if 255 < q then none
    else some { s with ax := s.ax % d % 256 * 256 + q }

/-- Modelled from the spec: signed 8-bit divide (truncating, as Rust's
integer division).  Failure (divisor 0 or quotient outside the signed
8-bit range) returns `none` and writes no register. -/
def divide_i8 (s : CpuState) (v : Nat) : Option CpuState :=
  let d := toSigned 8 v
  if d = 0 then none
  else
    let q := Int.tdiv (toSigned 16 s.ax) d
    let r := Int.tmod (toSigned 16 s.ax) d
    if q < -128 ∨ 127 < q then none
    else some { s with ax := toUnsigned 8 r * 256 + toUnsigned 8 q }

/-- Modelled from the spec: unsigned 16-bit divide of DX:AX.  Failure
(divide-by-zero or quotient overflow past 0xFFFF) returns `none` and
writes no register. -/
def divide_u16 (s : CpuState) (v : Nat) : Option CpuState :=
  let d := v % 65536
  if d = 0 then none
  else
    let dividend := s.dx % 65536 * 65536 + s.ax % 65536
    let q := dividend / d
    if 65535 < q then none
    else some { s with ax := q, dx := dividend % d }

/-- Modelled from the spec: signed 16-bit divide of DX:AX.  Failure
(divisor 0 or quotient outside the signed 16-bit range) returns `none`
and writes no register. -/
def divide_i16 (s : CpuState) (v : Nat) : Option CpuState :=
  let d := toSigned 16 v
  if d = 0 then none
  else
    let dividend := toSigned 32 (s.dx % 65536 * 65536 + s.ax % 65536)
    let q := Int.tdiv dividend d
    let r := Int.tmod dividend d
    if q < -32768 ∨ 32767 < q then none
    else some { s with ax := toUnsigned 16 q, dx := toUnsigned 16 r }

/-- Modelled from the spec: operand read at byte width through the
register file / BIU (`read_operand8`, outside `src/`).  Relative
operands read back their raw byte, matching the engine's use of
operand reads on relative displacements. -/
def read_operand8 (s : CpuState) (t : OperandType) (ovr : SegmentOverride) : Option Nat :=
  match t with
  | .Register8 r => some (get_register8 s r)
  | .Immediate8 v => some (v % 256)
  | .Relative8 v => some (toUnsigned 8 v)
  | .AddressingMode disp =>
      let seg := get_register16 s (resolve_segment ovr .DS)
      some (mem_read8 s.mem (calc_linear_address seg disp))
  | _ => none

/-- Modelled from the spec: operand read at word width through the
register file / BIU. -/
def read_operand16 (s : CpuState) (t : OperandType) (ovr : SegmentOverride) : Option Nat :=
  match t with
  | .Register16 r => some (get_register16 s r)
  | .Immediate16 v => some (v % 65536)
  | .Relative16 v => some (toUnsigned 16 v)
  | .AddressingMode disp =>
      let seg := get_register16 s (resolve_segment ovr .DS)
      some (mem_read16 s.mem (calc_linear_address seg disp))
  | _ => none

/-- Modelled from the spec: operand write at byte width. -/
def write_operand8 (s : CpuState) (t : OperandType) (ovr : SegmentOverride) (v : Nat) : CpuState :=
  match t with
  | .Register8 r => set_register8 s r v
  | .AddressingMode disp =>
      let seg := get_register16 s (resolve_segment ovr .DS)
      { s with mem := mem_write8 s.mem (calc_linear_address seg disp) v }
  | _ => s

/-- Modelled from the spec: operand write at word width. -/
def write_operand16 (s : CpuState) (t : OperandType) (ovr : SegmentOverride) (v : Nat) : CpuState :=
  match t with
  | .Register16 r => set_register16 s r v
  | .AddressingMode disp =>
      let seg := get_register16 s (resolve_segment ovr .DS)
      { s with mem := mem_write16 s.mem (calc_linear_address seg disp) v }
  | _ => s

/-- Modelled from the spec: far-pointer operand read (offset word at
the effective address, segment word at the effective address + 2). -/
def read_operand_farptr (s : CpuState) (t : OperandType) (ovr : SegmentOverride) :
    Option (Nat × Nat) :=
  match t with
  | .AddressingMode disp =>
      let seg := get_register16 s (resolve_segment ovr .DS)
      let offset := mem_read16 s.mem (calc_linear_address seg disp)
      let segment := mem_read16 s.mem (calc_linear_address seg (disp + 2))
      some (segment, offset)
  | .FarAddress segment offset => some (segment, offset)
  | _ => none

/-- Modelled from the spec: word push (SP decremented by 2, word
written at SS:SP). -/
def push_u16 (s : CpuState) (v : Nat) : CpuState :=
  let sp := (s.sp + 65536 - 2) % 65536
  { s with sp := sp, mem := mem_write16 s.mem (calc_linear_address s.ss sp) v }

/-- Modelled from the spec: byte push used by the broken 8-bit call
forms (SP decremented by 1, byte written at SS:SP). -/
def push_u8 (s : CpuState) (v : Nat) : CpuState :=
  let sp := (s.sp + 65536 - 1) % 65536
  { s with sp := sp, mem := mem_write8 s.mem (calc_linear_address s.ss sp) v }

/-- Push of a named 16-bit register. -/
def push_register16 (s : CpuState) (r : Register16) : CpuState :=
  push_u16 s (get_register16 s r)

/-- Fallback used where the source unwraps an operand read that the
decoder contract guarantees to succeed (a `None` there is a decoder
contract violation, a programming-error class outside emulated
behavior). -/
def orZero (o : Option Nat) : Nat := o.getD 0

/-- Per-call direction step of a string operation: +width with the
Direction flag clear, -width (mod 2^16) with it set. -/
def string_step (s : CpuState) (w : Nat) : Nat :=
  if s.flagD then 65536 - w else w

/-- Modelled from the spec: the single-iteration string operation
engine (`string_op`, outside `src/`).  Each call transfers or compares
exactly one element; stepping of SI/DI follows the Direction flag;
repetition and CX live entirely in the caller. -/
def string_op (s : CpuState) (mn : Mnemonic) (ovr : SegmentOverride) : CpuState :=
  match mn with
  | .MOVSB =>
      let seg := get_register16 s (resolve_segment ovr .DS)
      let b := mem_read8 s.mem (calc_linear_address seg s.si)
      let s := { s with mem := mem_write8 s.mem (calc_linear_address s.es s.di) b }
      { s with si := (s.si + string_step s 1) % 65536,
               di := (s.di + string_step s 1) % 65536 }
  | .MOVSW =>
      let seg := get_register16 s (resolve_segment ovr .DS)
      let w := mem_read16 s.mem (calc_linear_address seg s.si)
      let s := { s with mem := mem_write16 s.mem (calc_linear_address s.es s.di) w }
      { s with si := (s.si + string_step s 2) % 65536,
               di := (s.di + string_step s 2) % 65536 }
  | .CMPSB =>
      let seg := get_register16 s (resolve_segment ovr .DS)
      let a := mem_read8 s.mem (calc_linear_address seg s.si)
      let b := mem_read8 s.mem (calc_linear_address s.es s.di)
      let s := cmp_flags8 s a b
      { s with si := (s.si + string_step s 1) % 65536,
               di := (s.di + string_step s 1) % 65536 }
  | .CMPSW =>
      let seg := get_register16 s (resolve_segment ovr .DS)
      let a := mem_read16 s.mem (calc_linear_address seg s.si)
      let b := mem_read16 s.mem (calc_linear_address s.es s.di)
      let s := cmp_flags16 s a b
      { s with si := (s.si + string_step s 2) % 65536,
               di := (s.di + string_step s 2) % 65536 }
  | .SCASB =>
      let b := mem_read8 s.mem (calc_linear_address s.es s.di)
      let s := cmp_flags8 s (s.ax % 256) b
      { s with di := (s.di + string_step s 1) % 65536 }
  | .SCASW =>
      let b := mem_read16 s.mem (calc_linear_address s.es s.di)
      let s := cmp_flags16 s (s.ax % 65536) b
      { s with di := (s.di + string_step s 2) % 65536 }
  | .LODSB =>
      let seg := get_register16 s (resolve_segment ovr .DS)
      let b := mem_read8 s.mem (calc_linear_address seg s.si)
      let s := set_register8 s .AL b
      { s with si := (s.si + string_step s 1) % 65536 }
  | .LODSW =>
      let seg := get_register16 s (resolve_segment ovr .DS)
      let w := mem_read16 s.mem (calc_linear_address seg s.si)
      let s := set_register16 s .AX w
      { s with si := (s.si + string_step s 2) % 65536 }
  | .STOSB =>
      let s := { s with mem := mem_write8 s.mem (calc_linear_address s.es s.di) (s.ax % 256) }
      { s with di := (s.di + string_step s 1) % 65536 }
  | .STOSW =>
      let s := { s with mem := mem_write16 s.mem (calc_linear_address s.es s.di) (s.ax % 65536) }
      { s with di := (s.di + string_step s 2) % 65536 }
  | _ => s

/-- Restore of one saved REP register bundle, translated from the
restore match at the top of `execute_instruction` (each variant writes
the bundled registers and nothing else). -/
def restore_rep_state (s : CpuState) (r : RepState) : CpuState :=
  match r with
  | .StosbState es di cx =>
      set_register16 { s with es := es, di := di } .CX cx
  | .StoswState es di cx =>
      set_register16 { s with es := es, di := di } .CX cx
  | .LodsbState seg seg_val si cx =>
      set_register16 { set_register16 s seg seg_val with si := si } .CX cx
  | .LodswState seg seg_val si cx =>
      set_register16 { set_register16 s seg seg_val with si := si } .CX cx
  | .MovsbState seg seg_val si es di cx =>
      set_register16 { set_register16 s seg seg_val with si := si, es := es, di := di } .CX cx
  | .MovswState seg seg_val si es di cx =>
      set_register16 { set_register16 s seg seg_val with si := si, es := es, di := di } .CX cx
  | .ScasbState es di cx =>
      set_register16 { s with es := es, di := di } .CX cx
  | .ScaswState es di cx =>
      set_register16 { s with es := es, di := di } .CX cx
  | .CmpsbState seg seg_val si es di cx =>
      set_register16 { set_register16 s seg seg_val with si := si, es := es, di := di } .CX cx
  | .CmpswState seg seg_val si es di cx =>
      set_register16 { set_register16 s seg seg_val with si := si, es := es, di := di } .CX cx
  | .NoState => s

/-- Whether the decoded instruction carries either REP prefix bit. -/
def rep_prefix_set (i : Instruction) : Bool :=
  decide (i.prefixes &&& OPCODE_PREFIX_REP1 ≠ 0) || decide (i.prefixes &&& OPCODE_PREFIX_REP2 ≠ 0)

/-- The pre-dispatch part of `execute_instruction`: REP prefix
validation and repeat-type selection, consultation of the saved REP
resume state (top of stack, matched by CS:IP, popped once consumed),
the post-STI interrupt-inhibit reset, and the opcode-0x00 run counter
(whose forced halt is disabled in the reference code). -/
def repPrelude (s : CpuState) (i : Instruction) : CpuState :=
  let s :=
    if rep_prefix_set i then
      let pick :=
        match i.mnemonic with
        | .STOSB | .STOSW | .LODSB | .LODSW | .MOVSB | .MOVSW =>
            ({ s with rep_type := .Rep }, false)
        | .SCASB | .SCASW | .CMPSB | .CMPSW =>
            (if i.prefixes &&& OPCODE_PREFIX_REP1 ≠ 0 then { s with rep_type := .Repne }
             else { s with rep_type := .Repe }, false)
        | _ => (s, true)
      let s := pick.1
      let invalid_rep := pick.2
      let s :=
        match s.rep_state with
        | [] => s
        | entry :: rest =>
            if entry.1 = s.cs ∧ entry.2.1 = s.ip then
              { restore_rep_state s entry.2.2 with rep_state := rest }
            else s
      if ¬invalid_rep then { s with in_rep := true, rep_mnemonic := i.mnemonic } else s
    else s
  let s := { s with interrupt_inhibit := false }
  if i.opcode = 0 then { s with opcode0_counter := (s.opcode0_counter + 1) % 4294967296 }
  else { s with opcode0_counter := 0 }

/-- Outcome of the opcode dispatch: the mutated machine state and bus
trace together with the per-call locals of `execute_instruction`
(`unhandled`, `jump`, `exception`) and `early`, which marks the
default arm's immediate `UnsupportedOpcode` return. -/
structure DispatchOut where
  state : CpuState
  io : IoBus
  unhandled : Bool
  jump : Bool
  exception : CpuException
  early : Bool
  deriving Repr

/-- Outcome of one full `execute_instruction` call. -/
structure ExecOut where
  state : CpuState
  io : IoBus
  result : ExecutionResult
  deriving Repr

/-- The REP end-condition block shared by every string-op arm: with a
repeat in progress, CX is decremented when nonzero and the repeat ends
when CX reaches zero. -/
def rep_cx_block (s : CpuState) : CpuState :=
  if s.in_rep then
    let s := if 0 < s.cx then { s with cx := decrement16 s.cx } else s
    if s.cx = 0 then { s with in_rep := false, rep_type := .NoRep } else s
  else s

/-- The second REP end-condition block of CMPS/SCAS: REPNE stops when
the Zero flag is set, REPE stops when it is clear. -/
def rep_z_block (s : CpuState) : CpuState :=
  match s.rep_type with
  | .Repne => if s.flagZ then { s with in_rep := false, rep_type := .NoRep } else s
  | .Repe => if ¬s.flagZ then { s with in_rep := false, rep_type := .NoRep } else s
  | _ => s

/-- The body shared by the string-op arms: run one iteration unless a
repeat is in progress with CX exhausted, then apply the CX end
condition. -/
def string_arm (s : CpuState) (mn : Mnemonic) (ovr : SegmentOverride) : CpuState :=
  let s := if ¬s.in_rep ∨ (s.in_rep ∧ 0 < s.cx) then string_op s mn ovr else s
  rep_cx_block s

/-- Relative-8 operand extraction; the source's `get_operand!` macro
panics on a decoder contract violation, modelled as 0 out of contract. -/
def getRelative8 (t : OperandType) : Int :=
  match t with
  | .Relative8 v => v
  | _ => 0

/-- Relative-16 operand extraction, as `getRelative8`. -/
def getRelative16 (t : OperandType) : Int :=
  match t with
  | .Relative16 v => v
  | _ => 0

/-- Far-pointer unwrap fallback, as `orZero`. -/
def orZeroPair (o : Option (Nat × Nat)) : Nat × Nat := o.getD (0, 0)

/-- FIFO eviction step of the bounded call stack: drop the oldest
entry when the stack is exactly at the configured maximum. -/
def call_stack_evict (s : CpuState) : CpuState :=
  if s.call_stack.length = CPU_CALL_STACK_LEN then
    { s with call_stack := s.call_stack.drop 1 }
  else s

/-- Dispatch arm 0x60..=0x7F (conditional jumps; 0x60-0x6F alias
0x70-0x7F on the 8088): the low nibble selects the flag condition, a
taken jump adds `size + rel8` to IP. -/
def arm_jcc (s : CpuState) (i : Instruction) (io : IoBus) : DispatchOut :=
  let jump :=
    match i.opcode % 16 with
    | 0 => s.flagO
    | 1 => !s.flagO
    | 2 => s.flagC
    | 3 => !s.flagC
    | 4 => s.flagZ
    | 5 => !s.flagZ
    | 6 => s.flagC || s.flagZ
    | 7 => !s.flagC && !s.flagZ
    | 8 => s.flagS
    | 9 => !s.flagS
    | 10 => s.flagP
    | 11 => !s.flagP
    | 12 => s.flagS != s.flagO
    | 13 => s.flagS == s.flagO
    | 14 => s.flagZ || (s.flagS != s.flagO)
    | 15 => !s.flagZ && (s.flagS == s.flagO)
    | _ => false
  if jump then
    let rel8 := getRelative8 i.operand1_type
    ⟨{ s with ip := relative_offset_u16 s.ip (rel8 + i.size) }, io, false, true, .NoException, false⟩
  else
    ⟨s, io, false, false, .NoException, false⟩

/-- Dispatch arm 0x9A (CALLF with an immediate far address): pushes
CS, records the call (evicting the oldest entry when the diagnostic
stack is full), transfers to the far target, then pushes the return
offset. -/
def arm_callf_9a (s : CpuState) (i : Instruction) (io : IoBus) : DispatchOut :=
  let s1 := push_register16 s .CS
  let next_i := (s1.ip + i.size) % 65536
  let s2 :=
    match i.operand1_type with
    | .FarAddress segment offset =>
        let s2 := call_stack_evict s1
        let s2 := { s2 with call_stack := s2.call_stack ++ [CallStackEntry.CallF s2.cs s2.ip segment offset] }
        { s2 with cs := segment, ip := offset }
    | _ => s1
  ⟨push_u16 s2 next_i, io, false, true, .NoException, false⟩

/-- Dispatch arm 0xD4 (AAM): an immediate divisor of 0 raises the
divide exception without adjusting; otherwise the BCD adjust runs. -/
def arm_aam_d4 (s : CpuState) (i : Instruction) (io : IoBus) : DispatchOut :=
  let v := orZero (read_operand8 s i.operand1_type .None)
  if v = 0 then ⟨s, io, false, false, .DivideError, false⟩
  else ⟨aam s v, io, false, false, .NoException, false⟩

/-- Dispatch arm 0xE7 (OUT imm8, ax): two sequential byte writes; the
second port is the 8-bit immediate plus one, computed in u8 (Rust
release wrap). -/
def arm_out_e7 (s : CpuState) (i : Instruction) (io : IoBus) : DispatchOut :=
  let p := orZero (read_operand8 s i.operand1_type i.segment_override)
  let v := orZero (read_operand16 s i.operand2_type i.segment_override)
  let io := io_write_u8 io p (v % 256)
  let io := io_write_u8 io ((p + 1) % 256) (v / 256 % 256)
  ⟨s, io, false, false, .NoException, false⟩

/-- Dispatch arm 0xEF (OUT dx, ax): two sequential byte writes; the
second port is DX plus one, computed in u16 (Rust release wrap). -/
def arm_out_ef (s : CpuState) (i : Instruction) (io : IoBus) : DispatchOut :=
  let p := orZero (read_operand16 s i.operand1_type i.segment_override)
  let v := orZero (read_operand16 s i.operand2_type i.segment_override)
  let io := io_write_u8 io p (v % 256)
  let io := io_write_u8 io ((p + 1) % 65536) (v / 256 % 256)
  ⟨s, io, false, false, .NoException, false⟩

/-- Dispatch arm 0xE8 (CALL rel16): pushes the return offset, adds the
relative displacement to IP, and records the call with FIFO eviction
checked before the push. -/
def arm_call_e8 (s : CpuState) (i : Instruction) (io : IoBus) : DispatchOut :=
  let cs := get_register16 s .CS
  let ip := get_register16 s .IP
  let next_i := (ip + i.size) % 65536
  let s1 := push_u16 s next_i
  let rel16 := orZero (read_operand16 s1 i.operand1_type i.segment_override)
  let s2 := { s1 with ip := relative_offset_u16 s1.ip (toSigned 16 rel16 + i.size) }
  let s3 := call_stack_evict s2
  let s4 := { s3 with call_stack := s3.call_stack ++ [CallStackEntry.Call cs ip rel16] }
  ⟨s4, io, false, true, .NoException, false⟩

/-- Dispatch arm 0xE9 (JMP rel16). -/
def arm_jmp_e9 (s : CpuState) (i : Instruction) (io : IoBus) : DispatchOut :=
  let rel16 := getRelative16 i.operand1_type
  ⟨{ s with ip := relative_offset_u16 s.ip (rel16 + i.size) }, io, false, true, .NoException, false⟩

/-- Dispatch arm 0xEA (JMP far immediate). -/
def arm_jmpf_ea (s : CpuState) (i : Instruction) (io : IoBus) : DispatchOut :=
  let s :=
    match i.operand1_type with
    | .FarAddress segment offset => { s with cs := segment, ip := offset }
    | _ => s
  ⟨s, io, false, true, .NoException, false⟩

/-- Dispatch arm 0xEB (JMP rel8). -/
def arm_jmp_eb (s : CpuState) (i : Instruction) (io : IoBus) : DispatchOut :=
  let rel8 := getRelative8 i.operand1_type
  ⟨{ s with ip := relative_offset_u16 s.ip (rel8 + i.size) }, io, false, true, .NoException, false⟩

/-- Dispatch arm 0xF6 (byte opcode-extension group): the pre-resolved
mnemonic selects TEST/NOT/NEG/MUL/IMUL/DIV/IDIV; a failed divide
raises the divide exception and leaves every register unmodified; any
other mnemonic marks the call unhandled. -/
def arm_grp_f6 (s : CpuState) (i : Instruction) (io : IoBus) : DispatchOut :=
  match i.mnemonic with
  | .TEST =>
      let a := orZero (read_operand8 s i.operand1_type i.segment_override)
      let b := orZero (read_operand8 s i.operand2_type i.segment_override)
      ⟨(math_op8 s i.mnemonic a b).1, io, false, false, .NoException, false⟩
  | .NOT =>
      let a := orZero (read_operand8 s i.operand1_type i.segment_override)
      let m := math_op8 s i.mnemonic a 0
      ⟨write_operand8 m.1 i.operand1_type i.segment_override m.2, io, false, false, .NoException, false⟩
  | .NEG =>
      let a := orZero (read_operand8 s i.operand1_type i.segment_override)
      let m := math_op8 s i.mnemonic a 0
      ⟨write_operand8 m.1 i.operand1_type i.segment_override m.2, io, false, false, .NoException, false⟩
  | .MUL =>
      let a := orZero (read_operand8 s i.operand1_type i.segment_override)
      ⟨multiply_u8 s a, io, false, false, .NoException, false⟩
  | .IMUL =>
      let a := orZero (read_operand8 s i.operand1_type i.segment_override)
      ⟨multiply_i8 s a, io, false, false, .NoException, false⟩
  | .DIV =>
      let a := orZero (read_operand8 s i.operand1_type i.segment_override)
      match divide_u8 s a with
      | none => ⟨s, io, false, false, .DivideError, false⟩
      | some s2 => ⟨s2, io, false, false, .NoException, false⟩
  | .IDIV =>
      let a := orZero (read_operand8 s i.operand1_type i.segment_override)
      match divide_i8 s a with
      | none => ⟨s, io, false, false, .DivideError, false⟩
      | some s2 => ⟨s2, io, false, false, .NoException, false⟩
  | _ => ⟨s, io, true, false, .NoException, false⟩

/-- Dispatch arm 0xF7 (word opcode-extension group), as `arm_grp_f6`
at 16-bit width with DIV/IDIV over DX:AX. -/
def arm_grp_f7 (s : CpuState) (i : Instruction) (io : IoBus) : DispatchOut :=
  match i.mnemonic with
  | .TEST =>
      let a := orZero (read_operand16 s i.operand1_type i.segment_override)
      let b := orZero (read_operand16 s i.operand2_type i.segment_override)
      ⟨(math_op16 s i.mnemonic a b).1, io, false, false, .NoException, false⟩
  | .NOT =>
      let a := orZero (read_operand16 s i.operand1_type i.segment_override)
      let m := math_op16 s i.mnemonic a 0
      ⟨write_operand16 m.1 i.operand1_type i.segment_override m.2, io, false, false, .NoException, false⟩
  | .NEG =>
      let a := orZero (read_operand16 s i.operand1_type i.segment_override)
      let m := math_op16 s i.mnemonic a 0
      ⟨write_operand16 m.1 i.operand1_type i.segment_override m.2, io, false, false, .NoException, false⟩
  | .MUL =>
      let a := orZero (read_operand16 s i.operand1_type i.segment_override)
      ⟨multiply_u16 s a, io, false, false, .NoException, false⟩
  | .IMUL =>
      let a := orZero (read_operand16 s i.operand1_type i.segment_override)
      ⟨multiply_i16 s a, io, false, false, .NoException, false⟩
  | .DIV =>
      let a := orZero (read_operand16 s i.operand1_type i.segment_override)
      match divide_u16 s a with
      | none => ⟨s, io, false, false, .DivideError, false⟩
      | some s2 => ⟨s2, io, false, false, .NoException, false⟩
  | .IDIV =>
      let a := orZero (read_operand16 s i.operand1_type i.segment_override)
      match divide_i16 s a with
      | none => ⟨s, io, false, false, .DivideError, false⟩
      | some s2 => ⟨s2, io, false, false, .NoException, false⟩
  | _ => ⟨s, io, true, false, .NoException, false⟩

/-- Dispatch arm 0xFE (byte opcode-extension group): INC/DEC are the
documented forms; CALL/CALLF/JMP/JMPF/PUSH are the intentionally
broken 8-bit variants derived from real-silicon experiments.  The
memory-operand CALL/CALLF/JMP/JMPF forms force the high byte of the
transferred IP (and CS, for the far forms) to 0xFF; the
register-operand forms copy the full 16 bits of the containing word
register into IP instead. -/
def arm_grp_fe (s : CpuState) (i : Instruction) (io : IoBus) : DispatchOut :=
  match i.mnemonic with
  | .INC =>
      let a := orZero (read_operand8 s i.operand1_type i.segment_override)
      let m := math_op8 s i.mnemonic a 0
      ⟨write_operand8 m.1 i.operand1_type i.segment_override m.2, io, false, false, .NoException, false⟩
  | .DEC =>
      let a := orZero (read_operand8 s i.operand1_type i.segment_override)
      let m := math_op8 s i.mnemonic a 0
      ⟨write_operand8 m.1 i.operand1_type i.segment_override m.2, io, false, false, .NoException, false⟩
  | .CALL =>
      let s :=
        match i.operand1_type with
        | .AddressingMode _ =>
            let ptr8 := orZero (read_operand8 s i.operand1_type i.segment_override)
            let next_i := (s.ip + i.size) % 65536
            let s := push_u8 s (next_i % 256)
            { s with ip := Nat.lor 65280 ptr8 }
        | .Register8 reg =>
            let next_i := (s.ip + i.size) % 65536
            let s := push_u8 s (next_i % 256)
            { s with ip := get_register16 s (reg8to16 reg) }
        | _ => s
      ⟨s, io, false, true, .NoException, false⟩
  | .CALLF =>
      match i.operand1_type with
      | .AddressingMode disp =>
          let seg_val := get_register16 s (resolve_segment .None .DS)
          let offset := mem_read8 s.mem (calc_linear_address seg_val disp)
          let segment := mem_read8 s.mem (calc_linear_address seg_val (disp + 2))
          let s := push_u8 s (s.cs % 256)
          let next_i := (s.ip + i.size) % 65536
          let s := push_u8 s (next_i % 256)
          let s := { s with cs := Nat.lor 65280 segment, ip := Nat.lor 65280 offset }
          ⟨s, io, false, true, .NoException, false⟩
      | .Register8 reg =>
          let s := push_u8 s (s.cs % 256)
          let next_i := (s.ip + i.size) % 65536
          let s := push_u8 s (next_i % 256)
          let s := { s with ip := get_register16 s (reg8to16 reg) }
          ⟨s, io, false, false, .NoException, false⟩
      | _ => ⟨s, io, false, false, .NoException, false⟩
  | .JMP =>
      let ptr8 := orZero (read_operand8 s i.operand1_type i.segment_override)
      ⟨{ s with ip := Nat.lor 65280 ptr8 }, io, false, true, .NoException, false⟩
  | .JMPF =>
      match i.operand1_type with
      | .AddressingMode disp =>
          let seg_val := get_register16 s (resolve_segment .None .DS)
          let offset := mem_read8 s.mem (calc_linear_address seg_val disp)
          let segment := mem_read8 s.mem (calc_linear_address seg_val (disp + 2))
          let s := { s with cs := Nat.lor 65280 segment, ip := Nat.lor 65280 offset }
          ⟨s, io, false, true, .NoException, false⟩
      | .Register8 reg =>
          let s := { s with ip := get_register16 s (reg8to16 reg) }
          ⟨s, io, false, false, .NoException, false⟩
      | _ => ⟨s, io, false, false, .NoException, false⟩
  | .PUSH =>
      let a := orZero (read_operand8 s i.operand1_type i.segment_override)
      ⟨push_u8 s a, io, false, false, .NoException, false⟩
  | _ => ⟨s, io, true, false, .NoException, false⟩

/-- Dispatch arm 0xFF (word opcode-extension group): INC/DEC and the
full-width CALL/CALLF/JMP/JMPF/PUSH forms.  Note that the CALLF form
records the call on the diagnostic stack before the capacity check,
unlike the other three call arms. -/
def arm_grp_ff (s : CpuState) (i : Instruction) (io : IoBus) : DispatchOut :=
  match i.mnemonic with
  | .INC =>
      let a := orZero (read_operand16 s i.operand1_type i.segment_override)
      let m := math_op16 s i.mnemonic a 0
      ⟨write_operand16 m.1 i.operand1_type i.segment_override m.2, io, false, false, .NoException, false⟩
  | .DEC =>
      let a := orZero (read_operand16 s i.operand1_type i.segment_override)
      let m := math_op16 s i.mnemonic a 0
      ⟨write_operand16 m.1 i.operand1_type i.segment_override m.2, io, false, false, .NoException, false⟩
  | .CALL =>
      let ptr16 := orZero (read_operand16 s i.operand1_type i.segment_override)
      let next_i := (s.ip + i.size) % 65536
      let s := push_u16 s next_i
      let s := call_stack_evict s
      let s := { s with call_stack := s.call_stack ++ [CallStackEntry.Call s.cs s.ip ptr16] }
      let s := { s with ip := ptr16 }
      ⟨s, io, false, true, .NoException, false⟩
  | .CALLF =>
      let fp := orZeroPair (read_operand_farptr s i.operand1_type i.segment_override)
      let segment := fp.1
      let offset := fp.2
      let s := push_register16 s .CS
      let next_i := (s.ip + i.size) % 65536
      let s := push_u16 s next_i
      let s := { s with call_stack := s.call_stack ++ [CallStackEntry.CallF s.cs s.ip segment offset] }
      let s := { s with cs := segment, ip := offset }
      let s := call_stack_evict s
      ⟨s, io, false, true, .NoException, false⟩
  | .JMP =>
      let ptr16 := orZero (read_operand16 s i.operand1_type i.segment_override)
      ⟨{ s with ip := ptr16 }, io, false, true, .NoException, false⟩
  | .JMPF =>
      let fp := orZeroPair (read_operand_farptr s i.operand1_type i.segment_override)
      ⟨{ s with cs := fp.1, ip := fp.2 }, io, false, true, .NoException, false⟩
  | .PUSH =>
      let a := orZero (read_operand16 s i.operand1_type i.segment_override)
      ⟨push_u16 s a, io, false, false, .NoException, false⟩
  | _ => ⟨s, io, true, false, .NoException, false⟩

/-- The opcode dispatch of `execute_instruction`, one `if` per
translated match arm, in source order.  Arms outside the verified
subset fall to the default arm, whose immediate `UnsupportedOpcode`
return is marked by `early`. -/
def dispatch (s : CpuState) (i : Instruction) (io : IoBus) : DispatchOut :=
  if 96 ≤ i.opcode ∧ i.opcode ≤ 127 then arm_jcc s i io
  else if i.opcode = 154 then arm_callf_9a s i io
  else if i.opcode = 164 then
    ⟨string_arm s .MOVSB i.segment_override, io, false, false, .NoException, false⟩
  else if i.opcode = 165 then
    ⟨string_arm s .MOVSW i.segment_override, io, false, false, .NoException, false⟩
  else if i.opcode = 166 ∨ i.opcode = 167 then
    ⟨rep_z_block (string_arm s i.mnemonic i.segment_override), io, false, false, .NoException, false⟩
  else if i.opcode = 170 ∨ i.opcode = 171 then
    ⟨string_arm s i.mnemonic .None, io, false, false, .NoException, false⟩
  else if i.opcode = 172 ∨ i.opcode = 173 then
    ⟨string_arm s i.mnemonic i.segment_override, io, false, false, .NoException, false⟩
  else if i.opcode = 174 ∨ i.opcode = 175 then
    ⟨rep_z_block (string_arm s i.mnemonic .None), io, false, false, .NoException, false⟩
  else if i.opcode = 212 then arm_aam_d4 s i io
  else if i.opcode = 213 then
    ⟨aad s (orZero (read_operand8 s i.operand1_type .None)), io, false, false, .NoException, false⟩
  else if i.opcode = 231 then arm_out_e7 s i io
  else if i.opcode = 232 then arm_call_e8 s i io
  else if i.opcode = 233 then arm_jmp_e9 s i io
  else if i.opcode = 234 then arm_jmpf_ea s i io
  else if i.opcode = 235 then arm_jmp_eb s i io
  else if i.opcode = 239 then arm_out_ef s i io
  else if i.opcode = 240 then ⟨s, io, true, false, .NoException, false⟩
  else if i.opcode = 241 then ⟨s, io, false, false, .NoException, false⟩
  else if i.opcode = 242 then ⟨s, io, true, false, .NoException, false⟩
  else if i.opcode = 243 then ⟨s, io, true, false, .NoException, false⟩
  else if i.opcode = 244 then ⟨{ s with halted := true }, io, false, false, .NoException, false⟩
  else if i.opcode = 245 then ⟨{ s with flagC := !s.flagC }, io, false, false, .NoException, false⟩
  else if i.opcode = 246 then arm_grp_f6 s i io
  else if i.opcode = 247 then arm_grp_f7 s i io
  else if i.opcode = 248 then ⟨{ s with flagC := false }, io, false, false, .NoException, false⟩
  else if i.opcode = 249 then ⟨{ s with flagC := true }, io, false, false, .NoException, false⟩
  else if i.opcode = 250 then ⟨{ s with flagI := false }, io, false, false, .NoException, false⟩
  else if i.opcode = 251 then ⟨{ s with flagI := true }, io, false, false, .NoException, false⟩
  else if i.opcode = 252 then ⟨{ s with flagD := false }, io, false, false, .NoException, false⟩
  else if i.opcode = 253 then ⟨{ s with flagD := true }, io, false, false, .NoException, false⟩
  else if i.opcode = 254 then arm_grp_fe s i io
  else if i.opcode = 255 then arm_grp_ff s i io
  else ⟨s, io, false, false, .NoException, true⟩

/-- The execution engine's single entry point, translated from
`execute_instruction`: the REP/inhibit/run-counter prelude, the opcode
dispatch, and the per-instruction result classification in source
order (default-arm return, unhandled sub-case, halt with interrupts
disabled, control-flow change, repeat in progress, divide exception,
normal completion). -/
def execute_instruction (s : CpuState) (i : Instruction) (io : IoBus) : ExecOut :=
  let s1 := repPrelude s i
  let d := dispatch s1 i io
  if d.early then ⟨d.state, d.io, .UnsupportedOpcode i.opcode⟩
  else if d.unhandled then ⟨d.state, d.io, .UnsupportedOpcode i.opcode⟩
  else if d.state.halted && !d.state.flagI then ⟨d.state, d.io, .Halt⟩
  else if d.jump then ⟨d.state, d.io, .OkayJump⟩
  else if d.state.in_rep then ⟨d.state, d.io, .OkayRep⟩
  else
    match d.exception with
    | .DivideError => ⟨d.state, d.io, .ExceptionError .DivideError⟩
    | .NoException => ⟨d.state, d.io, .Okay⟩

/-- A machine state with every register and flag cleared and every
history empty, used as the base of concrete scenarios. -/
def zeroState : CpuState :=
  ⟨0, 0, 0, 0, 0, 0, 0, 0, 0, 0, 0, 0, 0,
   false, false, false, false, false, false, false, false, false,
   false, false, false, .NoRep, .InvalidMnemonic, 0, [], [], []⟩

/-- The result classification exactly as the spec words it, applied to
a dispatch outcome: no dispatch arm or an unhandled sub-case gives
`UnsupportedOpcode`; otherwise halted with interrupts disabled gives
`Halt`; otherwise a control-flow change gives `OkayJump`; otherwise a
still-in-progress repetition gives `OkayRep` (even over a divide
exception); otherwise a raised divide exception gives
`ExceptionError`; otherwise `Okay`. -/
def claimClassify (op : Nat) (d : DispatchOut) : ExecutionResult :=
  if d.early || d.unhandled then .UnsupportedOpcode op
  else if d.state.halted && !d.state.flagI then .Halt
  else if d.jump then .OkayJump
  else if d.state.in_rep then .OkayRep
  else if d.exception = .DivideError then .ExceptionError .DivideError
  else .Okay

/-- The conditional-jump truth table exactly as the spec tabulates it,
indexed by the opcode's low nibble, over the flags at entry. -/
def jccCondition (nib : Nat) (s : CpuState) : Bool :=
  match nib with
  | 0 => s.flagO
  | 1 => !s.flagO
  | 2 => s.flagC
  | 3 => !s.flagC
  | 4 => s.flagZ
  | 5 => !s.flagZ
  | 6 => s.flagC || s.flagZ
  | 7 => !s.flagC && !s.flagZ
  | 8 => s.flagS
  | 9 => !s.flagS
  | 10 => s.flagP
  | 11 => !s.flagP
  | 12 => s.flagS != s.flagO
  | 13 => s.flagS == s.flagO
  | 14 => s.flagZ || (s.flagS != s.flagO)
  | 15 => !s.flagZ && (s.flagS == s.flagO)
  | _ => false

/-- Modelled from the spec: the snapshot the interrupt-dispatch
collaborator pushes before diverting control out of a REP MOVS(B) —
the instruction identity (CS:IP) paired with the MOVS register bundle:
source segment register and value, SI, ES, DI, CX. -/
def save_rep_state_movsb (s : CpuState) (i : Instruction) : CpuState :=
  let seg := resolve_segment i.segment_override .DS
  { s with rep_state :=
      (s.cs, s.ip, RepState.MovsbState seg (get_register16 s seg) s.si s.es s.di s.cx)
      :: s.rep_state }

/-- Fuel-bounded driver of the engine's outer loop: re-enter the same
instruction while the call reports `OkayRep`. -/
def run_to_completion (fuel : Nat) (s : CpuState) (i : Instruction) (io : IoBus) :
    CpuState × IoBus :=
  match fuel with
  | 0 => (s, io)
  | fuel + 1 =>
      let e := execute_instruction s i io
      match e.result with
      | .OkayRep => run_to_completion fuel e.state i e.io
      | _ => (e.state, e.io)

/-- Sequential execution of a list of decoded instructions. -/
def exec_seq (l : List Instruction) (s : CpuState) (io : IoBus) : CpuState × IoBus :=
  match l with
  | [] => (s, io)
  | i :: rest =>
      let e := execute_instruction s i io
      exec_seq rest e.state e.io

lemma execute_instruction_state_eq (s : CpuState) (i : Instruction) (io : IoBus) :
    (execute_instruction s i io).state = (dispatch (repPrelude s i) i io).state := by
  unfold execute_instruction
  dsimp only
  repeat' split
  all_goals rfl

lemma execute_instruction_io_eq (s : CpuState) (i : Instruction) (io : IoBus) :
    (execute_instruction s i io).io = (dispatch (repPrelude s i) i io).io := by
  unfold execute_instruction
  dsimp only
  repeat' split
  all_goals rfl

/-- C1: every call of `execute_instruction` classifies its result in
the spec's priority order — no dispatch arm or an unhandled sub-case
gives `UnsupportedOpcode(opcode)`; else halted with the Interrupt flag
clear gives `Halt`; else a control-flow change gives `OkayJump`; else
a still-set repeating-in-progress flag gives `OkayRep` (even over a
raised divide exception); else a raised divide exception gives
`ExceptionError(DivideError)`; else `Okay`. -/
theorem execute_result_is_claim_classification (s : CpuState) (i : Instruction) (io : IoBus) :
    (execute_instruction s i io).result =
      claimClassify i.opcode (dispatch (repPrelude s i) i io) := by
  unfold execute_instruction claimClassify
  dsimp only
  generalize dispatch (repPrelude s i) i io = d
  rcases d with ⟨st, dio, unh, jmp, exc, early⟩
  cases early <;> cases unh <;> cases jmp <;> cases exc <;>
    cases hh : st.halted <;> cases hi : st.flagI <;> cases hr : st.in_rep <;>
    simp [hh, hi, hr]

lemma repPrelude_no_rep (s : CpuState) (i : Instruction)
    (h : i.prefixes = 0) (h0 : i.opcode ≠ 0) :
    repPrelude s i = { s with interrupt_inhibit := false, opcode0_counter := 0 } := by
  unfold repPrelude rep_prefix_set
  simp [h, OPCODE_PREFIX_REP1, OPCODE_PREFIX_REP2, h0]

/-- C7: for every conditional-jump opcode in 0x60-0x7F (0x70-0x7F and
their 8088 aliases), the jump-taken decision is exactly the spec's
truth table indexed by the opcode's low nibble, evaluated on the flags
at entry, and IP becomes `IP + size + sign_extend(rel8)` when taken
and is unchanged when not. -/
theorem conditional_jump_truth_table
    (s : CpuState) (i : Instruction) (io : IoBus) (r : Int)
    (hlo : 96 ≤ i.opcode) (hhi : i.opcode ≤ 127)
    (hpre : i.prefixes = 0)
    (hop : i.operand1_type = .Relative8 r) :
    (dispatch (repPrelude s i) i io).jump = jccCondition (i.opcode % 16) s ∧
    (execute_instruction s i io).state.ip =
      (if jccCondition (i.opcode % 16) s = true
       then toUnsigned 16 ((s.ip : Int) + (i.size : Int) + r)
       else s.ip) := by
  have h0 : i.opcode ≠ 0 := by omega
  rw [execute_instruction_state_eq, repPrelude_no_rep s i hpre h0]
  unfold dispatch
  rw [if_pos (show 96 ≤ i.opcode ∧ i.opcode ≤ 127 from ⟨hlo, hhi⟩)]
  unfold arm_jcc jccCondition
  rw [hop]
  set k := i.opcode % 16 with hk
  have hk16 : k < 16 := by omega
  unfold getRelative8
  interval_cases k <;>
    · dsimp only
      split
      all_goals rename_i hj
      all_goals simp_all [relative_offset_u16]
      all_goals congr 1
      all_goals ring

/-- Witness for C7 at opcode 0x74 (JZ) with the Zero flag set and a
backward displacement of -4 from IP 100 with size 2. -/
theorem conditional_jump_truth_table_witness :
    (dispatch (repPrelude { zeroState with ip := 100, flagZ := true }
        ⟨116, .JMP, .Relative8 (-4), .NoOperand, .None, 0, 2⟩)
        ⟨116, .JMP, .Relative8 (-4), .NoOperand, .None, 0, 2⟩ []).jump =
      jccCondition (116 % 16) { zeroState with ip := 100, flagZ := true } ∧
    (execute_instruction { zeroState with ip := 100, flagZ := true }
        ⟨116, .JMP, .Relative8 (-4), .NoOperand, .None, 0, 2⟩ []).state.ip =
      (if jccCondition (116 % 16) { zeroState with ip := 100, flagZ := true } = true
       then toUnsigned 16 ((({ zeroState with ip := 100, flagZ := true } : CpuState).ip : Int) +
         ((⟨116, .JMP, .Relative8 (-4), .NoOperand, .None, 0, 2⟩ : Instruction).size : Int) + (-4))
       else ({ zeroState with ip := 100, flagZ := true } : CpuState).ip) :=
  conditional_jump_truth_table _ _ [] (-4) (by decide) (by decide) rfl rfl

/-- The REP-prefixed MOVSB instruction of the resume scenario. -/
def c3_instruction : Instruction :=
  ⟨164, .MOVSB, .NoOperand, .NoOperand, .None, OPCODE_PREFIX_REP2, 2⟩

/-- Start state of the resume scenario: CX=5, five source bytes at
DS:SI. -/
def c3_start : CpuState :=
  { zeroState with
      cx := 5
      si := 16
      di := 32
      ds := 256
      es := 512
      cs := 768
      ip := 64
      mem := [(4112, 11), (4113, 22), (4114, 33), (4115, 44), (4116, 55)] }

/-- First engine call of the scenario. -/
def c3_e1 : ExecOut := execute_instruction c3_start c3_instruction []

/-- Second engine call of the scenario. -/
def c3_e2 : ExecOut := execute_instruction c3_e1.state c3_instruction c3_e1.io

/-- State at re-entry: the interrupt saved the MOVS snapshot and the
interrupt handler then dirtied every bundled register. -/
def c3_resumed : CpuState :=
  { save_rep_state_movsb c3_e2.state c3_instruction with
    cx := 9, si := 7, di := 3, es := 9, ds := 1 }

/-- C3: a REP MOVS with CX=5 interrupted after 2 engine calls, with a
snapshot saved under the instruction's CS:IP and the bundled registers
clobbered in between, resumes by restoring the bundle and popping the
snapshot: both interrupted calls report `OkayRep`, CX is 3 at the
interrupt, the first re-entered call continues from CX=3 to CX=2 with
a post-state bit-identical to the third uninterrupted call, the
snapshot stack ends empty, and the completed run's final state and bus
trace are bit-identical to an uninterrupted CX=5 run. -/
theorem rep_movs_resume_round_trip :
    c3_e1.result = .OkayRep ∧ c3_e2.result = .OkayRep ∧ c3_e2.state.cx = 3 ∧
    (execute_instruction c3_resumed c3_instruction c3_e2.io).state =
      (execute_instruction c3_e2.state c3_instruction c3_e2.io).state ∧
    (execute_instruction c3_resumed c3_instruction c3_e2.io).state.cx = 2 ∧
    run_to_completion 10 c3_resumed c3_instruction c3_e2.io =
      run_to_completion 10 c3_start c3_instruction [] ∧
    (run_to_completion 10 c3_resumed c3_instruction c3_e2.io).1.rep_state = [] := by
  decide

/-- A CALL rel16 instruction (opcode 0xE8). -/
def c5_call : Instruction := ⟨232, .CALL, .Relative16 16, .NoOperand, .None, 0, 3⟩

/-- A CALLF through the 0xFF extension group with a memory operand. -/
def c5_callf_ff : Instruction := ⟨255, .CALLF, .AddressingMode 0, .NoOperand, .None, 0, 2⟩

/-- C5 (failing evaluation): the 0xFF CALLF arm records its call-stack
entry before the capacity check, so once the stack is at the
configured maximum (reached here by CPU_CALL_STACK_LEN CALL rel16
pushes, whose arm checks capacity before pushing), three further 0xFF
CALLF pushes leave the diagnostic call stack at maximum+3 entries —
the claimed bound does not hold; the pure CALL rel16 sequence of
maximum+3 pushes stays exactly at the maximum, as claimed. -/
theorem call_stack_bound_violated_by_ff_callf :
    (exec_seq (List.replicate (CPU_CALL_STACK_LEN + 3) c5_call)
        { zeroState with sp := 32768 } []).1.call_stack.length = CPU_CALL_STACK_LEN ∧
    (exec_seq (List.replicate CPU_CALL_STACK_LEN c5_call ++
        List.replicate 3 c5_callf_ff)
        { zeroState with sp := 32768 } []).1.call_stack.length = CPU_CALL_STACK_LEN + 3 := by
  set_option maxRecDepth 10000 in decide

/-- C9 (counterexample): at the largest representable port the second
byte write does not go to port p+1 — the port arithmetic wraps in the
port's own width, so OUT 0xE7 at port 0xFF writes its high byte to
port 0, and OUT 0xEF at port 0xFFFF likewise writes it to port 0. -/
theorem out16_port_plus_one_wraps :
    (execute_instruction { zeroState with ax := 43981 }
        ⟨231, .InvalidMnemonic, .Immediate8 255, .Register16 .AX, .None, 0, 2⟩ []).io =
      [(255, 205), (0, 171)] ∧
    (execute_instruction { zeroState with ax := 43981, dx := 65535 }
        ⟨239, .InvalidMnemonic, .Register16 .DX, .Register16 .AX, .None, 0, 2⟩ []).io =
      [(65535, 205), (0, 171)] ∧
    (0 : Nat) ≠ 255 + 1 ∧ (0 : Nat) ≠ 65535 + 1 := by
  decide

/-- C9 (amended): every 16-bit OUT (0xE7 and 0xEF) performs exactly
two 8-bit writes in order — the low byte of the value to port p, then
the high byte to port (p+1) reduced in the port operand's own width
(mod 256 for 0xE7's 8-bit immediate, mod 2^16 for 0xEF's DX); no
16-bit port write exists.  For ports below the maximum this second
port equals p+1. -/
theorem out16_two_sequential_byte_writes :
    (∀ (s : CpuState) (i : Instruction) (io : IoBus) (p v : Nat),
      i.opcode = 231 → i.prefixes = 0 →
      i.operand1_type = .Immediate8 p → p < 256 →
      read_operand16 (repPrelude s i) i.operand2_type i.segment_override = some v →
      v < 65536 →
      (execute_instruction s i io).io =
        io ++ [(p, v % 256), ((p + 1) % 256, v / 256)]) ∧
    (∀ (s : CpuState) (i : Instruction) (io : IoBus) (p v : Nat),
      i.opcode = 239 → i.prefixes = 0 →
      read_operand16 (repPrelude s i) i.operand1_type i.segment_override = some p →
      p < 65536 →
      read_operand16 (repPrelude s i) i.operand2_type i.segment_override = some v →
      v < 65536 →
      (execute_instruction s i io).io =
        io ++ [(p, v % 256), ((p + 1) % 65536, v / 256)]) := by
  constructor
  · intro s i io p v hop hpre h1 hp hread hv
    rw [execute_instruction_io_eq]
    have h0 : i.opcode ≠ 0 := by omega
    rw [repPrelude_no_rep s i hpre h0] at hread ⊢
    simp [dispatch, hop, arm_out_e7, h1, hread, read_operand8, orZero, io_write_u8,
      Nat.mod_eq_of_lt hp, Nat.mod_eq_of_lt (show p % 256 < 65536 by omega)]
    omega
  · intro s i io p v hop hpre hread1 hp hread2 hv
    rw [execute_instruction_io_eq]
    have h0 : i.opcode ≠ 0 := by omega
    rw [repPrelude_no_rep s i hpre h0] at hread1 hread2 ⊢
    simp [dispatch, hop, arm_out_ef, hread1, hread2, orZero, io_write_u8]
    omega

/-- Witness for the amended C9 at OUT 0xE7 with port 0xFF and
AX = 0xABCD. -/
theorem out16_two_sequential_byte_writes_witness :
    (execute_instruction { zeroState with ax := 43981 }
        ⟨231, .InvalidMnemonic, .Immediate8 255, .Register16 .AX, .None, 0, 2⟩ []).io =
      ([] : IoBus) ++ [(255, 43981 % 256), ((255 + 1) % 256, 43981 / 256)] :=
  out16_two_sequential_byte_writes.1 _ _ [] 255 43981 rfl rfl rfl (by decide) (by decide)
    (by decide)

/-- C8: AAM (0xD4) with immediate divisor 0 classifies as
`ExceptionError(DivideError)` with AX bit-identical (no jump and no
active repeat assumed); with a nonzero divisor the BCD adjust runs
(AH gets AL/d, AL gets AL mod d) and no divide exception is raised —
the call classifies `Okay`. -/
theorem aam_zero_raises_nonzero_adjusts :
    (∀ (s : CpuState) (i : Instruction) (io : IoBus),
      i.opcode = 212 → i.prefixes = 0 →
      s.halted = false → s.in_rep = false →
      read_operand8 (repPrelude s i) i.operand1_type .None = some 0 →
      (execute_instruction s i io).result = .ExceptionError .DivideError ∧
      (execute_instruction s i io).state.ax = s.ax) ∧
    (∀ (s : CpuState) (i : Instruction) (io : IoBus) (d : Nat),
      i.opcode = 212 → i.prefixes = 0 →
      s.halted = false → s.in_rep = false →
      read_operand8 (repPrelude s i) i.operand1_type .None = some d → d ≠ 0 →
      (execute_instruction s i io).result = .Okay ∧
      (execute_instruction s i io).state.ax =
        s.ax % 256 / d % 256 * 256 + s.ax % 256 % d) := by
  constructor
  · intro s i io hop hpre hhal hrep hread
    have h0 : i.opcode ≠ 0 := by omega
    unfold execute_instruction
    dsimp only
    rw [repPrelude_no_rep s i hpre h0] at hread ⊢
    simp only [hhal, hrep] at hread ⊢
    simp [dispatch, hop, arm_aam_d4, hread, orZero]
  · intro s i io d hop hpre hhal hrep hread hd
    have h0 : i.opcode ≠ 0 := by omega
    unfold execute_instruction
    dsimp only
    rw [repPrelude_no_rep s i hpre h0] at hread ⊢
    simp only [hhal, hrep] at hread ⊢
    simp [dispatch, hop, arm_aam_d4, hread, orZero, hd, aam]

/-- Witness for C8: AAM with divisor 0 and AX = 77 raises the divide
error and leaves AX at 77. -/
theorem aam_zero_raises_nonzero_adjusts_witness :
    (execute_instruction { zeroState with ax := 77 }
        ⟨212, .AAM, .Immediate8 0, .NoOperand, .None, 0, 2⟩ []).result =
      .ExceptionError .DivideError ∧
    (execute_instruction { zeroState with ax := 77 }
        ⟨212, .AAM, .Immediate8 0, .NoOperand, .None, 0, 2⟩ []).state.ax =
      ({ zeroState with ax := 77 } : CpuState).ax :=
  aam_zero_raises_nonzero_adjusts.1 _ _ [] rfl rfl rfl rfl (by decide)

lemma get_register8_lt (s : CpuState) (r : Register8) : get_register8 s r < 256 := by
  cases r <;> simp [get_register8] <;> omega

lemma mem_read8_lt (m : List (Nat × Nat)) (a : Nat) : mem_read8 m a < 256 := by
  induction m with
  | nil => simp [mem_read8]
  | cons x rest ih =>
      rcases x with ⟨xa, xv⟩
      unfold mem_read8
      split
      · omega
      · exact ih

lemma toUnsigned_lt (w : Nat) (x : Int) : toUnsigned w x < 2 ^ w := by
  unfold toUnsigned
  have hp : (0 : Int) < (2 ^ w : Nat) := by positivity
  have := Int.emod_lt_of_pos x hp
  have := Int.emod_nonneg x (by positivity : ((2 ^ w : Nat) : Int) ≠ 0)
  omega

lemma read_operand8_lt (s : CpuState) (t : OperandType) (ovr : SegmentOverride) (v : Nat)
    (h : read_operand8 s t ovr = some v) : v < 256 := by
  unfold read_operand8 at h
  cases t <;> simp at h
  case Register8 r => exact h ▸ get_register8_lt s r
  case Immediate8 w => omega
  case Relative8 x =>
    have := toUnsigned_lt 8 x
    omega
  case AddressingMode d => exact h ▸ mem_read8_lt _ _

/-- C2: every DIV/IDIV through the 0xF6/0xF7 extension groups whose
division fails (divisor zero or quotient overflow) classifies as
`ExceptionError(DivideError)` (no jump, no active repeat, not halted
assumed) and writes no register: AX and DX are bit-identical to their
values before the call. -/
theorem div_failure_raises_and_preserves_registers :
    (∀ (s : CpuState) (i : Instruction) (io : IoBus) (v : Nat),
      i.opcode = 246 → i.mnemonic = .DIV → i.prefixes = 0 →
      s.halted = false → s.in_rep = false →
      read_operand8 (repPrelude s i) i.operand1_type i.segment_override = some v →
      (v = 0 ∨ 255 < s.ax / v) →
      (execute_instruction s i io).result = .ExceptionError .DivideError ∧
      (execute_instruction s i io).state.ax = s.ax ∧
      (execute_instruction s i io).state.dx = s.dx) ∧
    (∀ (s : CpuState) (i : Instruction) (io : IoBus) (v : Nat),
      i.opcode = 246 → i.mnemonic = .IDIV → i.prefixes = 0 →
      s.halted = false → s.in_rep = false →
      read_operand8 (repPrelude s i) i.operand1_type i.segment_override = some v →
      (toSigned 8 v = 0 ∨
        (Int.tdiv (toSigned 16 s.ax) (toSigned 8 v) < -128 ∨
         127 < Int.tdiv (toSigned 16 s.ax) (toSigned 8 v))) →
      (execute_instruction s i io).result = .ExceptionError .DivideError ∧
      (execute_instruction s i io).state.ax = s.ax ∧
      (execute_instruction s i io).state.dx = s.dx) ∧
    (∀ (s : CpuState) (i : Instruction) (io : IoBus) (v : Nat),
      i.opcode = 247 → i.mnemonic = .DIV → i.prefixes = 0 →
      s.halted = false → s.in_rep = false → s.ax < 65536 → s.dx < 65536 → v < 65536 →
      read_operand16 (repPrelude s i) i.operand1_type i.segment_override = some v →
      (v = 0 ∨ 65535 < (s.dx * 65536 + s.ax) / v) →
      (execute_instruction s i io).result = .ExceptionError .DivideError ∧
      (execute_instruction s i io).state.ax = s.ax ∧
      (execute_instruction s i io).state.dx = s.dx) ∧
    (∀ (s : CpuState) (i : Instruction) (io : IoBus) (v : Nat),
      i.opcode = 247 → i.mnemonic = .IDIV → i.prefixes = 0 →
      s.halted = false → s.in_rep = false → s.ax < 65536 → s.dx < 65536 → v < 65536 →
      read_operand16 (repPrelude s i) i.operand1_type i.segment_override = some v →
      (toSigned 16 v = 0 ∨
        (Int.tdiv (toSigned 32 (s.dx * 65536 + s.ax)) (toSigned 16 v) < -32768 ∨
         32767 < Int.tdiv (toSigned 32 (s.dx * 65536 + s.ax)) (toSigned 16 v))) →
      (execute_instruction s i io).result = .ExceptionError .DivideError ∧
      (execute_instruction s i io).state.ax = s.ax ∧
      (execute_instruction s i io).state.dx = s.dx) := by
  refine ⟨?_, ?_, ?_, ?_⟩
  · intro s i io v hop hmn hpre hhal hrep hv hfail
    have h0 : i.opcode ≠ 0 := by omega
    have hvlt : v < 256 := read_operand8_lt _ _ _ _ hv
    unfold execute_instruction
    dsimp only
    rw [repPrelude_no_rep s i hpre h0] at hv ⊢
    simp only [hhal, hrep] at hv ⊢
    rcases hfail with h | h
    · simp [dispatch, hop, arm_grp_f6, hmn, hv, orZero, divide_u8, Nat.mod_eq_of_lt hvlt, h]
    · have hv0 : v ≠ 0 := by
        intro h'
        subst h'
        simp at h
      simp [dispatch, hop, arm_grp_f6, hmn, hv, orZero, divide_u8, Nat.mod_eq_of_lt hvlt,
        hv0, h]
  · intro s i io v hop hmn hpre hhal hrep hv hfail
    have h0 : i.opcode ≠ 0 := by omega
    unfold execute_instruction
    dsimp only
    rw [repPrelude_no_rep s i hpre h0] at hv ⊢
    simp only [hhal, hrep] at hv ⊢
    rcases hfail with h | h
    · simp [dispatch, hop, arm_grp_f6, hmn, hv, orZero, divide_i8, h]
    · have hd : toSigned 8 v ≠ 0 := by
        intro h'
        rw [h'] at h
        simp [Int.tdiv_zero] at h
      simp [dispatch, hop, arm_grp_f6, hmn, hv, orZero, divide_i8, hd, h]
  · intro s i io v hop hmn hpre hhal hrep hax hdx hvlt hv hfail
    have h0 : i.opcode ≠ 0 := by omega
    unfold execute_instruction
    dsimp only
    rw [repPrelude_no_rep s i hpre h0] at hv ⊢
    simp only [hhal, hrep] at hv ⊢
    rcases hfail with h | h
    · simp [dispatch, hop, arm_grp_f7, hmn, hv, orZero, divide_u16, Nat.mod_eq_of_lt hvlt,
        Nat.mod_eq_of_lt hax, Nat.mod_eq_of_lt hdx, h]
    · have hv0 : v ≠ 0 := by
        intro h'
        subst h'
        simp at h
      simp [dispatch, hop, arm_grp_f7, hmn, hv, orZero, divide_u16, Nat.mod_eq_of_lt hvlt,
        Nat.mod_eq_of_lt hax, Nat.mod_eq_of_lt hdx, hv0, h]
  · intro s i io v hop hmn hpre hhal hrep hax hdx hvlt hv hfail
    have h0 : i.opcode ≠ 0 := by omega
    unfold execute_instruction
    dsimp only
    rw [repPrelude_no_rep s i hpre h0] at hv ⊢
    simp only [hhal, hrep] at hv ⊢
    rcases hfail with h | h
    · simp [dispatch, hop, arm_grp_f7, hmn, hv, orZero, divide_i16, Nat.mod_eq_of_lt hvlt,
        Nat.mod_eq_of_lt hax, Nat.mod_eq_of_lt hdx, h]
    · have hd : toSigned 16 v ≠ 0 := by
        intro h'
        rw [h'] at h
        simp [Int.tdiv_zero] at h
      simp [dispatch, hop, arm_grp_f7, hmn, hv, orZero, divide_i16, Nat.mod_eq_of_lt hvlt,
        Nat.mod_eq_of_lt hax, Nat.mod_eq_of_lt hdx, hd, h]

/-- Witness for C2: an 8-bit DIV by the zero in BL with AX = 500
raises the divide error and leaves AX and DX untouched. -/
theorem div_failure_raises_and_preserves_registers_witness :
    (execute_instruction { zeroState with ax := 500 }
        ⟨246, .DIV, .Register8 .BL, .NoOperand, .None, 0, 2⟩ []).result =
      .ExceptionError .DivideError ∧
    (execute_instruction { zeroState with ax := 500 }
        ⟨246, .DIV, .Register8 .BL, .NoOperand, .None, 0, 2⟩ []).state.ax =
      ({ zeroState with ax := 500 } : CpuState).ax ∧
    (execute_instruction { zeroState with ax := 500 }
        ⟨246, .DIV, .Register8 .BL, .NoOperand, .None, 0, 2⟩ []).state.dx =
      ({ zeroState with ax := 500 } : CpuState).dx :=
  div_failure_raises_and_preserves_registers.1 _ _ [] 0 rfl rfl rfl rfl rfl (by decide)
    (Or.inl rfl)

lemma lor_table : ((List.range 256).all fun b => 65280 ||| b == 65280 + b) = true := by
  set_option maxRecDepth 4000 in rfl

lemma lor_ff00_eq_add (b : Nat) (hb : b < 256) : Nat.lor 65280 b = 65280 + b := by
  have h := lor_table
  rw [List.all_eq_true] at h
  have h2 := h b (by rw [List.mem_range]; omega)
  simpa using h2

lemma dispatch_eq_fe (s : CpuState) (i : Instruction) (io : IoBus) (h : i.opcode = 254) :
    dispatch s i io = arm_grp_fe s i io := by
  simp [dispatch, h]

/-- C6: for opcode 0xFE with mnemonic CALL (memory-operand form) or
JMP (every form on which the 8-bit operand read succeeds), the
resulting IP has high byte 0xFF and low byte equal to the operand byte
read. -/
theorem broken_call_jmp_forces_ip_high_byte :
    (∀ (s : CpuState) (i : Instruction) (io : IoBus) (d b : Nat),
      i.opcode = 254 → i.mnemonic = .CALL → i.prefixes = 0 →
      i.operand1_type = .AddressingMode d →
      read_operand8 (repPrelude s i) i.operand1_type i.segment_override = some b →
      (execute_instruction s i io).state.ip / 256 = 255 ∧
      (execute_instruction s i io).state.ip % 256 = b) ∧
    (∀ (s : CpuState) (i : Instruction) (io : IoBus) (b : Nat),
      i.opcode = 254 → i.mnemonic = .JMP → i.prefixes = 0 →
      read_operand8 (repPrelude s i) i.operand1_type i.segment_override = some b →
      (execute_instruction s i io).state.ip / 256 = 255 ∧
      (execute_instruction s i io).state.ip % 256 = b) := by
  constructor
  · intro s i io d b hop hmn hpre h1 hv
    have h0 : i.opcode ≠ 0 := by omega
    have hb : b < 256 := read_operand8_lt _ _ _ _ hv
    rw [h1] at hv
    rw [execute_instruction_state_eq, repPrelude_no_rep s i hpre h0,
      dispatch_eq_fe _ _ _ hop]
    rw [repPrelude_no_rep s i hpre h0] at hv
    simp [arm_grp_fe, hmn, h1, hv, orZero, lor_ff00_eq_add b hb]
    omega
  · intro s i io b hop hmn hpre hv
    have h0 : i.opcode ≠ 0 := by omega
    have hb : b < 256 := read_operand8_lt _ _ _ _ hv
    rw [execute_instruction_state_eq, repPrelude_no_rep s i hpre h0,
      dispatch_eq_fe _ _ _ hop]
    rw [repPrelude_no_rep s i hpre h0] at hv
    simp [arm_grp_fe, hmn, hv, orZero, lor_ff00_eq_add b hb]
    omega

/-- Witness for C6: 0xFE CALL through memory holding byte 0x42 leaves
IP = 0xFF42. -/
theorem broken_call_jmp_forces_ip_high_byte_witness :
    (execute_instruction { zeroState with ip := 100, mem := [(8, 66)] }
        ⟨254, .CALL, .AddressingMode 8, .NoOperand, .None, 0, 2⟩ []).state.ip / 256 = 255 ∧
    (execute_instruction { zeroState with ip := 100, mem := [(8, 66)] }
        ⟨254, .CALL, .AddressingMode 8, .NoOperand, .None, 0, 2⟩ []).state.ip % 256 = 66 :=
  broken_call_jmp_forces_ip_high_byte.1 _ _ [] 8 66 rfl rfl rfl rfl (by decide)

lemma fe_register_call (s : CpuState) (i : Instruction) (io : IoBus) (r : Register8)
    (hop : i.opcode = 254) (hmn : i.mnemonic = .CALL) (hpre : i.prefixes = 0)
    (h1 : i.operand1_type = .Register8 r) :
    (execute_instruction s i io).state.ip = get_register16 s (reg8to16 r) := by
  have h0 : i.opcode ≠ 0 := by omega
  rw [execute_instruction_state_eq, repPrelude_no_rep s i hpre h0, dispatch_eq_fe _ _ _ hop]
  cases r <;> simp [arm_grp_fe, hmn, h1, push_u8, get_register16, reg8to16]

lemma get_register16_push_u8 (s : CpuState) (v : Nat) (r : Register8) :
    get_register16 (push_u8 s v) (reg8to16 r) = get_register16 s (reg8to16 r) := by
  cases r <;> simp [push_u8, get_register16, reg8to16]

lemma push_u8_ip (s : CpuState) (v : Nat) : (push_u8 s v).ip = s.ip := by
  simp [push_u8]

lemma fe_register_callf (s : CpuState) (i : Instruction) (io : IoBus) (r : Register8)
    (hop : i.opcode = 254) (hmn : i.mnemonic = .CALLF) (hpre : i.prefixes = 0)
    (h1 : i.operand1_type = .Register8 r) :
    (execute_instruction s i io).state.ip = get_register16 s (reg8to16 r) := by
  have h0 : i.opcode ≠ 0 := by omega
  rw [execute_instruction_state_eq, repPrelude_no_rep s i hpre h0, dispatch_eq_fe _ _ _ hop]
  have harm : ∀ (t : CpuState),
      (arm_grp_fe t i io).state.ip =
        get_register16 (push_u8 (push_u8 t (t.cs % 256)) ((t.ip + i.size) % 65536 % 256))
          (reg8to16 r) := by
    intro t
    simp [arm_grp_fe, hmn, h1, push_u8_ip]
  rw [harm, get_register16_push_u8, get_register16_push_u8]
  cases r <;> simp [get_register16, reg8to16]

lemma fe_register_jmpf (s : CpuState) (i : Instruction) (io : IoBus) (r : Register8)
    (hop : i.opcode = 254) (hmn : i.mnemonic = .JMPF) (hpre : i.prefixes = 0)
    (h1 : i.operand1_type = .Register8 r) :
    (execute_instruction s i io).state.ip = get_register16 s (reg8to16 r) := by
  have h0 : i.opcode ≠ 0 := by omega
  rw [execute_instruction_state_eq, repPrelude_no_rep s i hpre h0, dispatch_eq_fe _ _ _ hop]
  cases r <;> simp [arm_grp_fe, hmn, h1, push_u8, get_register16, reg8to16]

/-- C10: for opcode 0xFE with mnemonic CALL, CALLF, or JMPF and a
register operand, the full 16 bits of the containing word register are
copied into IP — the high byte is not forced to 0xFF in the
register-operand form. -/
theorem broken_call_register_form_copies_full_word :
    (∀ (s : CpuState) (i : Instruction) (io : IoBus) (r : Register8),
      i.opcode = 254 → i.mnemonic = .CALL → i.prefixes = 0 →
      i.operand1_type = .Register8 r →
      (execute_instruction s i io).state.ip = get_register16 s (reg8to16 r)) ∧
    (∀ (s : CpuState) (i : Instruction) (io : IoBus) (r : Register8),
      i.opcode = 254 → i.mnemonic = .CALLF → i.prefixes = 0 →
      i.operand1_type = .Register8 r →
      (execute_instruction s i io).state.ip = get_register16 s (reg8to16 r)) ∧
    (∀ (s : CpuState) (i : Instruction) (io : IoBus) (r : Register8),
      i.opcode = 254 → i.mnemonic = .JMPF → i.prefixes = 0 →
      i.operand1_type = .Register8 r →
      (execute_instruction s i io).state.ip = get_register16 s (reg8to16 r)) :=
  ⟨fun s i io r hop hmn hpre h1 => fe_register_call s i io r hop hmn hpre h1,
   fun s i io r hop hmn hpre h1 => fe_register_callf s i io r hop hmn hpre h1,
   fun s i io r hop hmn hpre h1 => fe_register_jmpf s i io r hop hmn hpre h1⟩

/-- Witness for C10: 0xFE CALL with register operand CL and
CX = 0x1234 copies 0x1234 into IP, whose high byte is not 0xFF. -/
theorem broken_call_register_form_copies_full_word_witness :
    (execute_instruction { zeroState with ip := 100, cx := 4660 }
        ⟨254, .CALL, .Register8 .CL, .NoOperand, .None, 0, 2⟩ []).state.ip =
      get_register16 { zeroState with ip := 100, cx := 4660 } (reg8to16 .CL) ∧
    get_register16 { zeroState with ip := 100, cx := 4660 } (reg8to16 .CL) / 256 ≠ 255 :=
  ⟨broken_call_register_form_copies_full_word.1 _ _ [] .CL rfl rfl rfl rfl, by decide⟩

lemma string_op_cx (s : CpuState) (mn : Mnemonic) (ovr : SegmentOverride) :
    (string_op s mn ovr).cx = s.cx := by
  cases mn <;> simp [string_op, set_register8, set_register16, cmp_flags8, cmp_flags16]

lemma string_op_in_rep (s : CpuState) (mn : Mnemonic) (ovr : SegmentOverride) :
    (string_op s mn ovr).in_rep = s.in_rep := by
  cases mn <;> simp [string_op, set_register8, set_register16, cmp_flags8, cmp_flags16]

lemma string_op_rep_type (s : CpuState) (mn : Mnemonic) (ovr : SegmentOverride) :
    (string_op s mn ovr).rep_type = s.rep_type := by
  cases mn <;> simp [string_op, set_register8, set_register16, cmp_flags8, cmp_flags16]

lemma decrement16_pred (n : Nat) (h : 0 < n) (hb : n < 65536) :
    decrement16 n = n - 1 := by
  unfold decrement16
  omega

lemma string_arm_rep_step (t : CpuState) (mn : Mnemonic) (ovr : SegmentOverride)
    (hin : t.in_rep = true) (hcx : t.cx < 65536) :
    (0 < t.cx → (string_arm t mn ovr).cx = t.cx - 1) ∧
    (t.cx = 0 → (string_arm t mn ovr).cx = 0) ∧
    (string_arm t mn ovr).in_rep = decide ((string_arm t mn ovr).cx ≠ 0) ∧
    ((string_arm t mn ovr).cx ≠ 0 → (string_arm t mn ovr).rep_type = t.rep_type) := by
  unfold string_arm rep_cx_block
  rcases Nat.eq_zero_or_pos t.cx with hz | hp
  · have hcond : ¬(¬t.in_rep = true ∨ (t.in_rep = true ∧ 0 < t.cx)) := by
      simp [hin, hz]
    rw [if_neg hcond]
    simp [hin, hz]
  · have hcond : (¬t.in_rep = true ∨ (t.in_rep = true ∧ 0 < t.cx)) := Or.inr ⟨hin, hp⟩
    rw [if_pos hcond]
    dsimp only
    have hucx : (string_op t mn ovr).cx = t.cx := string_op_cx t mn ovr
    have huin : (string_op t mn ovr).in_rep = t.in_rep := string_op_in_rep t mn ovr
    have hurt : (string_op t mn ovr).rep_type = t.rep_type := string_op_rep_type t mn ovr
    rw [huin, hin, if_pos rfl, hucx, if_pos hp]
    have hdec : decrement16 t.cx = t.cx - 1 := decrement16_pred t.cx hp hcx
    by_cases hone : t.cx - 1 = 0
    · simp [hdec, hone]
    · simp [hdec, hone, huin, hin, hurt]
      omega

lemma rep_z_block_cx (t : CpuState) : (rep_z_block t).cx = t.cx := by
  unfold rep_z_block
  split <;> (try split) <;> rfl

lemma rep_z_block_flagZ (t : CpuState) : (rep_z_block t).flagZ = t.flagZ := by
  unfold rep_z_block
  split <;> (try split) <;> rfl

lemma rep_z_block_in_rep_false (t : CpuState) (h : t.in_rep = false) :
    (rep_z_block t).in_rep = false := by
  unfold rep_z_block
  split <;> (try split) <;> simp [h]

lemma rep_z_block_in_rep_repne (t : CpuState) (h : t.rep_type = .Repne) :
    (rep_z_block t).in_rep = (t.in_rep && !t.flagZ) := by
  unfold rep_z_block
  rw [h]
  cases hf : t.flagZ <;> simp [hf]

lemma rep_z_block_in_rep_repe (t : CpuState) (h : t.rep_type = .Repe) :
    (rep_z_block t).in_rep = (t.in_rep && t.flagZ) := by
  unfold rep_z_block
  rw [h]
  cases hf : t.flagZ <;> simp [hf]

lemma string_arm_z_step (t : CpuState) (mn : Mnemonic) (ovr : SegmentOverride)
    (hin : t.in_rep = true) (hcx : t.cx < 65536)
    (hrt : t.rep_type = .Repne ∨ t.rep_type = .Repe) :
    (0 < t.cx → (rep_z_block (string_arm t mn ovr)).cx = t.cx - 1) ∧
    (t.cx = 0 → (rep_z_block (string_arm t mn ovr)).cx = 0) ∧
    (rep_z_block (string_arm t mn ovr)).in_rep =
      (decide ((rep_z_block (string_arm t mn ovr)).cx ≠ 0) &&
       (if t.rep_type = .Repne then !(rep_z_block (string_arm t mn ovr)).flagZ
        else (rep_z_block (string_arm t mn ovr)).flagZ)) := by
  obtain ⟨hc1, hc2, hir, hrt2⟩ := string_arm_rep_step t mn ovr hin hcx
  refine ⟨fun h => by rw [rep_z_block_cx]; exact hc1 h,
          fun h => by rw [rep_z_block_cx]; exact hc2 h, ?_⟩
  by_cases hz : (string_arm t mn ovr).cx = 0
  · have hif : (string_arm t mn ovr).in_rep = false := by
      rw [hir]
      simp [hz]
    rw [rep_z_block_in_rep_false _ hif, rep_z_block_cx, hz]
    simp
  · have hift : (string_arm t mn ovr).in_rep = true := by
      rw [hir]
      simp [hz]
    have hrteq := hrt2 hz
    rcases hrt with h | h
    · rw [rep_z_block_in_rep_repne _ (by rw [hrteq, h]), hift, rep_z_block_cx,
        rep_z_block_flagZ, h]
      simp [hz]
    · rw [rep_z_block_in_rep_repe _ (by rw [hrteq, h]), hift, rep_z_block_cx,
        rep_z_block_flagZ, h]
      have : ¬t.rep_type = RepType.Repne := by
        rw [h]
        simp
      simp [hz, this]

lemma repPrelude_rep_movs_class (s : CpuState) (i : Instruction)
    (hrp : rep_prefix_set i = true) (hrs : s.rep_state = []) (h0 : i.opcode ≠ 0)
    (hmn : i.mnemonic = .MOVSB ∨ i.mnemonic = .MOVSW ∨ i.mnemonic = .STOSB ∨
           i.mnemonic = .STOSW ∨ i.mnemonic = .LODSB ∨ i.mnemonic = .LODSW) :
    repPrelude s i =
      { s with rep_type := .Rep, in_rep := true, rep_mnemonic := i.mnemonic,
               interrupt_inhibit := false, opcode0_counter := 0 } := by
  unfold repPrelude
  rcases hmn with h | h | h | h | h | h <;>
    simp [hrp, hrs, h0, h]

lemma repPrelude_rep_cmps_class (s : CpuState) (i : Instruction)
    (hrp : rep_prefix_set i = true) (hrs : s.rep_state = []) (h0 : i.opcode ≠ 0)
    (hmn : i.mnemonic = .CMPSB ∨ i.mnemonic = .CMPSW ∨ i.mnemonic = .SCASB ∨
           i.mnemonic = .SCASW) :
    repPrelude s i =
      { s with
        rep_type := if i.prefixes &&& OPCODE_PREFIX_REP1 ≠ 0 then .Repne else .Repe,
        in_rep := true, rep_mnemonic := i.mnemonic,
        interrupt_inhibit := false, opcode0_counter := 0 } := by
  unfold repPrelude
  rcases hmn with h | h | h | h <;>
    by_cases hq : i.prefixes &&& OPCODE_PREFIX_REP1 = 0 <;>
      simp [hrp, hrs, h0, h, hq]

lemma dispatch_eq_movsb (s : CpuState) (i : Instruction) (io : IoBus) (h : i.opcode = 164) :
    dispatch s i io = ⟨string_arm s .MOVSB i.segment_override, io, false, false, .NoException, false⟩ := by
  simp [dispatch, h]

lemma dispatch_eq_movsw (s : CpuState) (i : Instruction) (io : IoBus) (h : i.opcode = 165) :
    dispatch s i io = ⟨string_arm s .MOVSW i.segment_override, io, false, false, .NoException, false⟩ := by
  simp [dispatch, h]

lemma dispatch_eq_cmps (s : CpuState) (i : Instruction) (io : IoBus)
    (h : i.opcode = 166 ∨ i.opcode = 167) :
    dispatch s i io =
      ⟨rep_z_block (string_arm s i.mnemonic i.segment_override), io, false, false,
        .NoException, false⟩ := by
  rcases h with h | h <;> simp [dispatch, h]

lemma dispatch_eq_stos (s : CpuState) (i : Instruction) (io : IoBus)
    (h : i.opcode = 170 ∨ i.opcode = 171) :
    dispatch s i io = ⟨string_arm s i.mnemonic .None, io, false, false, .NoException, false⟩ := by
  rcases h with h | h <;> simp [dispatch, h]

lemma dispatch_eq_lods (s : CpuState) (i : Instruction) (io : IoBus)
    (h : i.opcode = 172 ∨ i.opcode = 173) :
    dispatch s i io =
      ⟨string_arm s i.mnemonic i.segment_override, io, false, false, .NoException, false⟩ := by
  rcases h with h | h <;> simp [dispatch, h]

lemma dispatch_eq_scas (s : CpuState) (i : Instruction) (io : IoBus)
    (h : i.opcode = 174 ∨ i.opcode = 175) :
    dispatch s i io =
      ⟨rep_z_block (string_arm s i.mnemonic .None), io, false, false, .NoException, false⟩ := by
  rcases h with h | h <;> simp [dispatch, h]

/-- C4: for every string-op call with a repeat in progress, CX is
decremented exactly once iff it was nonzero and the repeat flag is
cleared exactly when CX reaches zero after the decrement; for
CMPS/SCAS the repeat additionally ends when the Zero flag contradicts
the repeat type (REPNE stops on Zero set, REPE stops on Zero clear),
so the repeat continues exactly when CX is nonzero and the Zero
condition still holds. -/
theorem rep_string_cx_decrement_and_termination :
    (∀ (s : CpuState) (i : Instruction) (io : IoBus),
      ((i.opcode = 164 ∧ i.mnemonic = .MOVSB) ∨ (i.opcode = 165 ∧ i.mnemonic = .MOVSW) ∨
       (i.opcode = 170 ∧ i.mnemonic = .STOSB) ∨ (i.opcode = 171 ∧ i.mnemonic = .STOSW) ∨
       (i.opcode = 172 ∧ i.mnemonic = .LODSB) ∨ (i.opcode = 173 ∧ i.mnemonic = .LODSW)) →
      rep_prefix_set i = true → s.rep_state = [] → s.cx < 65536 →
      ((0 < s.cx → (execute_instruction s i io).state.cx = s.cx - 1) ∧
       (s.cx = 0 → (execute_instruction s i io).state.cx = 0) ∧
       (execute_instruction s i io).state.in_rep =
         decide ((execute_instruction s i io).state.cx ≠ 0))) ∧
    (∀ (s : CpuState) (i : Instruction) (io : IoBus),
      ((i.opcode = 166 ∧ i.mnemonic = .CMPSB) ∨ (i.opcode = 167 ∧ i.mnemonic = .CMPSW) ∨
       (i.opcode = 174 ∧ i.mnemonic = .SCASB) ∨ (i.opcode = 175 ∧ i.mnemonic = .SCASW)) →
      (i.prefixes = OPCODE_PREFIX_REP1 ∨ i.prefixes = OPCODE_PREFIX_REP2) →
      s.rep_state = [] → s.cx < 65536 →
      ((0 < s.cx → (execute_instruction s i io).state.cx = s.cx - 1) ∧
       (s.cx = 0 → (execute_instruction s i io).state.cx = 0) ∧
       (execute_instruction s i io).state.in_rep =
         (decide ((execute_instruction s i io).state.cx ≠ 0) &&
          (if i.prefixes = OPCODE_PREFIX_REP1 then !(execute_instruction s i io).state.flagZ
           else (execute_instruction s i io).state.flagZ)))) := by
  constructor
  ·
    intro s i io hpair hrp hrs hcx
    rw [execute_instruction_state_eq]
    rcases hpair with ⟨hop, hmn⟩ | ⟨hop, hmn⟩ | ⟨hop, hmn⟩ | ⟨hop, hmn⟩ | ⟨hop, hmn⟩ | ⟨hop, hmn⟩
    · have h0 : i.opcode ≠ 0 := by simp [hop]
      rw [repPrelude_rep_movs_class s i hrp hrs h0 (Or.inl hmn),
        dispatch_eq_movsb _ _ _ hop]
      obtain ⟨h1, h2, h3, _⟩ :=
        string_arm_rep_step
          { s with rep_type := .Rep, in_rep := true, rep_mnemonic := i.mnemonic,
                   interrupt_inhibit := false, opcode0_counter := 0 }
          .MOVSB i.segment_override rfl hcx
      exact ⟨h1, h2, h3⟩
    · have h0 : i.opcode ≠ 0 := by simp [hop]
      rw [repPrelude_rep_movs_class s i hrp hrs h0 (Or.inr (Or.inl hmn)),
        dispatch_eq_movsw _ _ _ hop]
      obtain ⟨h1, h2, h3, _⟩ :=
        string_arm_rep_step
          { s with rep_type := .Rep, in_rep := true, rep_mnemonic := i.mnemonic,
                   interrupt_inhibit := false, opcode0_counter := 0 }
          .MOVSW i.segment_override rfl hcx
      exact ⟨h1, h2, h3⟩
    · have h0 : i.opcode ≠ 0 := by simp [hop]
      rw [repPrelude_rep_movs_class s i hrp hrs h0 (Or.inr (Or.inr (Or.inl hmn))),
        dispatch_eq_stos _ _ _ (Or.inl hop)]
      obtain ⟨h1, h2, h3, _⟩ :=
        string_arm_rep_step
          { s with rep_type := .Rep, in_rep := true, rep_mnemonic := i.mnemonic,
                   interrupt_inhibit := false, opcode0_counter := 0 }
          i.mnemonic .None rfl hcx
      exact ⟨h1, h2, h3⟩
    · have h0 : i.opcode ≠ 0 := by simp [hop]
      rw [repPrelude_rep_movs_class s i hrp hrs h0 (Or.inr (Or.inr (Or.inr (Or.inl hmn)))),
        dispatch_eq_stos _ _ _ (Or.inr hop)]
      obtain ⟨h1, h2, h3, _⟩ :=
        string_arm_rep_step
          { s with rep_type := .Rep, in_rep := true, rep_mnemonic := i.mnemonic,
                   interrupt_inhibit := false, opcode0_counter := 0 }
          i.mnemonic .None rfl hcx
      exact ⟨h1, h2, h3⟩
    · have h0 : i.opcode ≠ 0 := by simp [hop]
      rw [repPrelude_rep_movs_class s i hrp hrs h0
          (Or.inr (Or.inr (Or.inr (Or.inr (Or.inl hmn))))),
        dispatch_eq_lods _ _ _ (Or.inl hop)]
      obtain ⟨h1, h2, h3, _⟩ :=
        string_arm_rep_step
          { s with rep_type := .Rep, in_rep := true, rep_mnemonic := i.mnemonic,
                   interrupt_inhibit := false, opcode0_counter := 0 }
          i.mnemonic i.segment_override rfl hcx
      exact ⟨h1, h2, h3⟩
    · have h0 : i.opcode ≠ 0 := by simp [hop]
      rw [repPrelude_rep_movs_class s i hrp hrs h0
          (Or.inr (Or.inr (Or.inr (Or.inr (Or.inr hmn))))),
        dispatch_eq_lods _ _ _ (Or.inr hop)]
      obtain ⟨h1, h2, h3, _⟩ :=
        string_arm_rep_step
          { s with rep_type := .Rep, in_rep := true, rep_mnemonic := i.mnemonic,
                   interrupt_inhibit := false, opcode0_counter := 0 }
          i.mnemonic i.segment_override rfl hcx
      exact ⟨h1, h2, h3⟩
  ·
    intro s i io hpair hq hrs hcx
    have hrp : rep_prefix_set i = true := by
      rcases hq with hq | hq <;>
        simp [rep_prefix_set, hq, OPCODE_PREFIX_REP1, OPCODE_PREFIX_REP2]
    rw [execute_instruction_state_eq]
    rcases hpair with ⟨hop, hmn⟩ | ⟨hop, hmn⟩ | ⟨hop, hmn⟩ | ⟨hop, hmn⟩ <;>
      rcases hq with hq | hq
    all_goals
      have h0 : i.opcode ≠ 0 := by simp [hop]
    case inl.intro.inl =>
      rw [repPrelude_rep_cmps_class s i hrp hrs h0 (Or.inl hmn),
        dispatch_eq_cmps _ _ _ (Or.inl hop)]
      have hrt : (if i.prefixes &&& OPCODE_PREFIX_REP1 ≠ 0 then RepType.Repne else RepType.Repe)
          = RepType.Repne := by
        simp [hq, OPCODE_PREFIX_REP1]
      rw [hrt]
      dsimp only
      obtain ⟨h1, h2, h3⟩ :=
        string_arm_z_step
          { s with rep_type := .Repne, in_rep := true, rep_mnemonic := i.mnemonic,
                   interrupt_inhibit := false, opcode0_counter := 0 }
          i.mnemonic i.segment_override rfl hcx (Or.inl rfl)
      refine ⟨h1, h2, ?_⟩
      rw [h3]
      simp [hq, OPCODE_PREFIX_REP1]

    case inl.intro.inr =>
      rw [repPrelude_rep_cmps_class s i hrp hrs h0 (Or.inl hmn),
        dispatch_eq_cmps _ _ _ (Or.inl hop)]
      have hrt : (if i.prefixes &&& OPCODE_PREFIX_REP1 ≠ 0 then RepType.Repne else RepType.Repe)
          = RepType.Repe := by
        simp [hq, OPCODE_PREFIX_REP1, OPCODE_PREFIX_REP2]
      rw [hrt]
      dsimp only
      obtain ⟨h1, h2, h3⟩ :=
        string_arm_z_step
          { s with rep_type := .Repe, in_rep := true, rep_mnemonic := i.mnemonic,
                   interrupt_inhibit := false, opcode0_counter := 0 }
          i.mnemonic i.segment_override rfl hcx (Or.inr rfl)
      refine ⟨h1, h2, ?_⟩
      rw [h3]
      simp [hq, OPCODE_PREFIX_REP1, OPCODE_PREFIX_REP2]

    case inr.inl.intro.inl =>
      rw [repPrelude_rep_cmps_class s i hrp hrs h0 (Or.inr (Or.inl hmn)),
        dispatch_eq_cmps _ _ _ (Or.inr hop)]
      have hrt : (if i.prefixes &&& OPCODE_PREFIX_REP1 ≠ 0 then RepType.Repne else RepType.Repe)
          = RepType.Repne := by
        simp [hq, OPCODE_PREFIX_REP1]
      rw [hrt]
      dsimp only
      obtain ⟨h1, h2, h3⟩ :=
        string_arm_z_step
          { s with rep_type := .Repne, in_rep := true, rep_mnemonic := i.mnemonic,
                   interrupt_inhibit := false, opcode0_counter := 0 }
          i.mnemonic i.segment_override rfl hcx (Or.inl rfl)
      refine ⟨h1, h2, ?_⟩
      rw [h3]
      simp [hq, OPCODE_PREFIX_REP1]

    case inr.inl.intro.inr =>
      rw [repPrelude_rep_cmps_class s i hrp hrs h0 (Or.inr (Or.inl hmn)),
        dispatch_eq_cmps _ _ _ (Or.inr hop)]
      have hrt : (if i.prefixes &&& OPCODE_PREFIX_REP1 ≠ 0 then RepType.Repne else RepType.Repe)
          = RepType.Repe := by
        simp [hq, OPCODE_PREFIX_REP1, OPCODE_PREFIX_REP2]
      rw [hrt]
      dsimp only
      obtain ⟨h1, h2, h3⟩ :=
        string_arm_z_step
          { s with rep_type := .Repe, in_rep := true, rep_mnemonic := i.mnemonic,
                   interrupt_inhibit := false, opcode0_counter := 0 }
          i.mnemonic i.segment_override rfl hcx (Or.inr rfl)
      refine ⟨h1, h2, ?_⟩
      rw [h3]
      simp [hq, OPCODE_PREFIX_REP1, OPCODE_PREFIX_REP2]

    case inr.inr.inl.intro.inl =>
      rw [repPrelude_rep_cmps_class s i hrp hrs h0 (Or.inr (Or.inr (Or.inl hmn))),
        dispatch_eq_scas _ _ _ (Or.inl hop)]
      have hrt : (if i.prefixes &&& OPCODE_PREFIX_REP1 ≠ 0 then RepType.Repne else RepType.Repe)
          = RepType.Repne := by
        simp [hq, OPCODE_PREFIX_REP1]
      rw [hrt]
      dsimp only
      obtain ⟨h1, h2, h3⟩ :=
        string_arm_z_step
          { s with rep_type := .Repne, in_rep := true, rep_mnemonic := i.mnemonic,
                   interrupt_inhibit := false, opcode0_counter := 0 }
          i.mnemonic .None rfl hcx (Or.inl rfl)
      refine ⟨h1, h2, ?_⟩
      rw [h3]
      simp [hq, OPCODE_PREFIX_REP1]

    case inr.inr.inl.intro.inr =>
      rw [repPrelude_rep_cmps_class s i hrp hrs h0 (Or.inr (Or.inr (Or.inl hmn))),
        dispatch_eq_scas _ _ _ (Or.inl hop)]
      have hrt : (if i.prefixes &&& OPCODE_PREFIX_REP1 ≠ 0 then RepType.Repne else RepType.Repe)
          = RepType.Repe := by
        simp [hq, OPCODE_PREFIX_REP1, OPCODE_PREFIX_REP2]
      rw [hrt]
      dsimp only
      obtain ⟨h1, h2, h3⟩ :=
        string_arm_z_step
          { s with rep_type := .Repe, in_rep := true, rep_mnemonic := i.mnemonic,
                   interrupt_inhibit := false, opcode0_counter := 0 }
          i.mnemonic .None rfl hcx (Or.inr rfl)
      refine ⟨h1, h2, ?_⟩
      rw [h3]
      simp [hq, OPCODE_PREFIX_REP1, OPCODE_PREFIX_REP2]

    case inr.inr.inr.intro.inl =>
      rw [repPrelude_rep_cmps_class s i hrp hrs h0 (Or.inr (Or.inr (Or.inr hmn))),
        dispatch_eq_scas _ _ _ (Or.inr hop)]
      have hrt : (if i.prefixes &&& OPCODE_PREFIX_REP1 ≠ 0 then RepType.Repne else RepType.Repe)
          = RepType.Repne := by
        simp [hq, OPCODE_PREFIX_REP1]
      rw [hrt]
      dsimp only
      obtain ⟨h1, h2, h3⟩ :=
        string_arm_z_step
          { s with rep_type := .Repne, in_rep := true, rep_mnemonic := i.mnemonic,
                   interrupt_inhibit := false, opcode0_counter := 0 }
          i.mnemonic .None rfl hcx (Or.inl rfl)
      refine ⟨h1, h2, ?_⟩
      rw [h3]
      simp [hq, OPCODE_PREFIX_REP1]

    case inr.inr.inr.intro.inr =>
      rw [repPrelude_rep_cmps_class s i hrp hrs h0 (Or.inr (Or.inr (Or.inr hmn))),
        dispatch_eq_scas _ _ _ (Or.inr hop)]
      have hrt : (if i.prefixes &&& OPCODE_PREFIX_REP1 ≠ 0 then RepType.Repne else RepType.Repe)
          = RepType.Repe := by
        simp [hq, OPCODE_PREFIX_REP1, OPCODE_PREFIX_REP2]
      rw [hrt]
      dsimp only
      obtain ⟨h1, h2, h3⟩ :=
        string_arm_z_step
          { s with rep_type := .Repe, in_rep := true, rep_mnemonic := i.mnemonic,
                   interrupt_inhibit := false, opcode0_counter := 0 }
          i.mnemonic .None rfl hcx (Or.inr rfl)
      refine ⟨h1, h2, ?_⟩
      rw [h3]
      simp [hq, OPCODE_PREFIX_REP1, OPCODE_PREFIX_REP2]

/-- Witness for C4 at a REP MOVSB with CX = 5: CX drops to 4 and the
repeat stays in progress. -/
theorem rep_string_cx_decrement_and_termination_witness :
    (0 < ({ zeroState with cx := 5 } : CpuState).cx →
      (execute_instruction { zeroState with cx := 5 } c3_instruction []).state.cx =
        ({ zeroState with cx := 5 } : CpuState).cx - 1) ∧
    (({ zeroState with cx := 5 } : CpuState).cx = 0 →
      (execute_instruction { zeroState with cx := 5 } c3_instruction []).state.cx = 0) ∧
    (execute_instruction { zeroState with cx := 5 } c3_instruction []).state.in_rep =
      decide ((execute_instruction { zeroState with cx := 5 } c3_instruction []).state.cx ≠ 0) :=
  rep_string_cx_decrement_and_termination.1 _ _ [] (Or.inl ⟨rfl, rfl⟩) (by decide) rfl
    (by decide)
